import Mathlib

/-!
Shallow embedding of the `mpx_wayland` core (seat/device registry) from
`src/mpx_wayland/core/models.py` and `src/mpx_wayland/core/seat_manager.py`,
together with theorems settling the specification claims.

Conventions of the embedding:
* Python `dict[str, V]` is an insertion-ordered association list `Dict V`
  with Python dict semantics (`d[k] = v` updates in place or appends,
  `del d[k]` removes, `.get(k)` is `Dict.get?`).
* Python `set[str]` is a `List String` with membership-based `add`
  (`setAdd`) and `discard` (`setDiscard`).
* Coordinates (`float` in the source) are modelled as `Int`: every claimed
  property of positions is about translation and componentwise order
  (min/max clamping), which `Int` carries exactly.
* Raising an exception is modelled by returning an error kind together with
  the state as mutated so far (`OpResult`), so that "validate-then-mutate"
  is a provable property rather than a modelling artefact.
* `datetime.now()` is an oracle argument `now : Nat` to the operations that
  construct a `Grab`.
* Python truthiness of `Optional[str]` fields (`if device.seat_id:`) is
  modelled faithfully: `none` and `some ""` are both falsy (`truthy`).
-/

namespace MPX

/-- `DeviceType` enum from models.py. -/
inductive DeviceType where
  | pointer
  | keyboard
  | touch
  | tablet
  | unknown
deriving DecidableEq, Repr

/-- `DeviceCapability` enum from models.py. -/
inductive DeviceCapability where
  | pointer
  | keyboard
  | touch
  | tabletTool
  | tabletPad
  | gesture
  | switch
deriving DecidableEq, Repr

/-- `GrabMode` enum from models.py. -/
inductive GrabMode where
  | none
  | pointerLock
  | pointerConfine
  | keyboard
deriving DecidableEq, Repr

/-- `SeatState` enum from models.py. -/
inductive SeatState where
  | active
  | inactive
  | suspended
deriving DecidableEq, Repr

/-- `Position` dataclass: 2D point (source `float` coordinates modelled as `Int`). -/
structure Position where
  x : Int
  y : Int
deriving DecidableEq, Repr

/-- `Position.move`: return new position moved by delta. -/
def Position.move (p : Position) (dx dy : Int) : Position :=
  ⟨p.x + dx, p.y + dy⟩

/-- `Position.clamp`: componentwise `max(min_, min(max_, v))`. -/
def Position.clamp (p : Position) (minX minY maxX maxY : Int) : Position :=
  ⟨max minX (min maxX p.x), max minY (min maxY p.y)⟩

/-- `Cursor` dataclass. -/
structure Cursor where
  position : Position
  visible : Bool
  cursorTheme : String
  cursorName : String
  hotspotX : Int
  hotspotY : Int
deriving DecidableEq, Repr

/-- Default-constructed `Cursor()` (field defaults from models.py). -/
def Cursor.init : Cursor :=
  ⟨⟨0, 0⟩, true, "default", "left_ptr", 0, 0⟩

/-- `Cursor.move_by`: move cursor by relative amount. -/
def Cursor.moveBy (c : Cursor) (dx dy : Int) : Cursor :=
  { c with position := c.position.move dx dy }

/-- `Grab` dataclass (`started_at : datetime` modelled as a `Nat` stamp). -/
structure Grab where
  mode : GrabMode
  clientId : String
  surfaceId : Option String
  startedAt : Nat
deriving DecidableEq, Repr

/-- `Grab.is_active`: true iff mode ≠ NONE. -/
def Grab.isActive (g : Grab) : Bool :=
  decide (g.mode ≠ GrabMode.none)

/-- `FocusState` dataclass. -/
structure FocusState where
  pointerFocus : Option String
  keyboardFocus : Option String
deriving DecidableEq, Repr

/-- Python `set.add` on a membership-based list model of `set[str]`. -/
def setAdd (l : List String) (x : String) : List String :=
  if x ∈ l then l else l ++ [x]

/-- Python `set.discard` on the list model of `set[str]`. -/
def setDiscard (l : List String) (x : String) : List String :=
  l.filter (fun y => decide (y ≠ x))

/-- `Seat` dataclass. -/
structure Seat where
  id : String
  name : String
  state : SeatState
  cursor : Cursor
  focus : FocusState
  pointerGrab : Option Grab
  keyboardGrab : Option Grab
  pointerDevices : List String
  keyboardDevices : List String
deriving DecidableEq, Repr

/-- `Seat(name=name)` with a generated id: field defaults from models.py. -/
def Seat.init (id name : String) : Seat :=
  ⟨id, name, SeatState.active, Cursor.init, ⟨Option.none, Option.none⟩,
   Option.none, Option.none, [], []⟩

/-- `Seat.is_pointer_grabbed`: grab non-null and active. -/
def Seat.isPointerGrabbed (s : Seat) : Bool :=
  match s.pointerGrab with
  | Option.none => false
  | some g => g.isActive

/-- `Seat.is_keyboard_grabbed`: grab non-null and active. -/
def Seat.isKeyboardGrabbed (s : Seat) : Bool :=
  match s.keyboardGrab with
  | Option.none => false
  | some g => g.isActive

/-- `Seat.add_pointer_device`. -/
def Seat.addPointerDevice (s : Seat) (deviceId : String) : Seat :=
  { s with pointerDevices := setAdd s.pointerDevices deviceId }

/-- `Seat.add_keyboard_device`. -/
def Seat.addKeyboardDevice (s : Seat) (deviceId : String) : Seat :=
  { s with keyboardDevices := setAdd s.keyboardDevices deviceId }

/-- `Seat.remove_pointer_device`. -/
def Seat.removePointerDevice (s : Seat) (deviceId : String) : Seat :=
  { s with pointerDevices := setDiscard s.pointerDevices deviceId }

/-- `Seat.remove_keyboard_device`. -/
def Seat.removeKeyboardDevice (s : Seat) (deviceId : String) : Seat :=
  { s with keyboardDevices := setDiscard s.keyboardDevices deviceId }

/-- `Seat.set_pointer_grab`: store a fresh `Grab`. -/
def Seat.setPointerGrab (s : Seat) (clientId : String) (mode : GrabMode)
    (surfaceId : Option String) (now : Nat) : Seat :=
  { s with pointerGrab := some ⟨mode, clientId, surfaceId, now⟩ }

/-- `InputDevice` dataclass. -/
structure InputDevice where
  id : String
  name : String
  deviceType : DeviceType
  capabilities : List DeviceCapability
  vendorId : Int
  productId : Int
  sysfsPath : String
  seatId : Option String
  isAvailable : Bool
deriving DecidableEq, Repr

/-- `InputDevice.has_capability`. -/
def InputDevice.hasCapability (d : InputDevice) (c : DeviceCapability) : Bool :=
  decide (c ∈ d.capabilities)

/-- `DisplayBounds` dataclass. -/
structure DisplayBounds where
  x : Int
  y : Int
  width : Int
  height : Int
  name : String
deriving DecidableEq, Repr

/-- Default `DisplayBounds()` (1920×1080 at the origin). -/
def DisplayBounds.init : DisplayBounds :=
  ⟨0, 0, 1920, 1080, "default"⟩

/-- `EventType` enum from seat_manager.py. -/
inductive EventType where
  | seatCreated
  | seatDestroyed
  | seatStateChanged
  | deviceAdded
  | deviceRemoved
  | deviceAssigned
  | deviceUnassigned
  | pointerMotion
  | pointerButton
  | pointerAxis
  | keyboardKey
  | grabStarted
  | grabEnded
  | focusChanged
deriving DecidableEq, Repr

/-- Values carried in an event's `data` payload. -/
inductive EvValue where
  | str (v : String)
  | int (v : Int)
  | bool (v : Bool)
  | seatState (v : SeatState)
  | grabMode (v : GrabMode)
  | deviceType (v : DeviceType)
deriving DecidableEq, Repr

/-- `Event` dataclass emitted by the seat manager. -/
structure Event where
  eventType : EventType
  seatId : Option String
  deviceId : Option String
  data : List (String × EvValue)
deriving DecidableEq, Repr

/-- Error kinds: the exception classes of seat_manager.py
(`SeatNotFoundError`, `DeviceNotFoundError`, `DeviceAlreadyAssignedError`,
and the bare `SeatManagerError` raised for destroying the default seat,
which the spec calls `InvariantViolation`). -/
inductive SMError where
  | seatNotFound
  | deviceNotFound
  | deviceAlreadyAssigned
  | invariantViolation
deriving DecidableEq, Repr

/-- Insertion-ordered association list modelling `dict[str, V]`. -/
abbrev Dict (α : Type) := List (String × α)

/-- `dict.get(k)`: first (and, with distinct keys, only) binding. -/
def Dict.get? {α : Type} : Dict α → String → Option α
  | [], _ => Option.none
  | (k', v) :: rest, k => if k' = k then some v else Dict.get? rest k

/-- `d[k] = v`: update in place if the key is present, else append. -/
def Dict.insert {α : Type} : Dict α → String → α → Dict α
  | [], k, v => [(k, v)]
  | (k', v') :: rest, k, v =>
      if k' = k then (k', v) :: rest else (k', v') :: Dict.insert rest k v

/-- `del d[k]`: remove the binding of `k`. -/
def Dict.erase {α : Type} : Dict α → String → Dict α
  | [], _ => []
  | (k', v') :: rest, k => if k' = k then rest else (k', v') :: Dict.erase rest k

/-- Keys of a dict, in order. -/
def Dict.keys {α : Type} (d : Dict α) : List String :=
  d.map Prod.fst

/-- Python truthiness of an `Optional[str]`: `None` and `""` are falsy. -/
def truthy : Option String → Bool
  | Option.none => false
  | some s => decide (s ≠ "")

/-- The mutable state of a `SeatManager` instance. -/
structure SeatManager where
  seats : Dict Seat
  devices : Dict InputDevice
  displayBounds : DisplayBounds
  defaultSeatId : String
deriving DecidableEq, Repr

/-- Outcome of one registry operation: the returned value or raised error,
the state as left by the call (including any mutations made before a
raise), and the events emitted, in order. -/
structure OpResult (α : Type) where
  result : Except SMError α
  state : SeatManager
  events : List Event
deriving Repr

instance {α : Type} [DecidableEq α] : DecidableEq (Except SMError α) := fun a b =>
  match a, b with
  | Except.ok x, Except.ok y =>
      if h : x = y then isTrue (by rw [h]) else isFalse (by intro hc; cases hc; exact h rfl)
  | Except.error x, Except.error y =>
      if h : x = y then isTrue (by rw [h]) else isFalse (by intro hc; cases hc; exact h rfl)
  | Except.ok _, Except.error _ => isFalse (by intro hc; cases hc)
  | Except.error _, Except.ok _ => isFalse (by intro hc; cases hc)

/-- `create_seat(name)`: always succeeds; `newId` stands for the fresh
`uuid4` generated by the `Seat` constructor. -/
def createSeat (m : SeatManager) (name newId : String) : OpResult String :=
  let seat := Seat.init newId name
  ⟨Except.ok seat.id,
   { m with seats := m.seats.insert seat.id seat },
   [⟨EventType.seatCreated, some seat.id, Option.none, [("name", EvValue.str name)]⟩]⟩

/-- Construction of `SeatManager(default_seat_name)`: empty maps, default
display bounds, then `create_seat` for the default seat. -/
def SeatManager.init (defaultSeatName newId : String) : SeatManager :=
  let m0 : SeatManager := ⟨[], [], DisplayBounds.init, newId⟩
  (createSeat m0 defaultSeatName newId).state

/-- `set_display_bounds(bounds)`. -/
def setDisplayBounds (m : SeatManager) (b : DisplayBounds) : OpResult Unit :=
  ⟨Except.ok (), { m with displayBounds := b }, []⟩

/-- The device loop of `destroy_seat`: clear the `seat_id` of every listed
device that is still present in the registry. -/
def clearAssignments (ds : Dict InputDevice) (l : List String) : Dict InputDevice :=
  l.foldl
    (fun ds d =>
      match Dict.get? ds d with
      | Option.none => ds
      | some dev => Dict.insert ds d { dev with seatId := Option.none })
    ds

/-- `destroy_seat(seat_id)`: not-found check, default-seat check, then
clear the assignment of every device in the seat's sets, delete the seat. -/
def destroySeat (m : SeatManager) (seatId : String) : OpResult Unit :=
  match m.seats.get? seatId with
  | Option.none => ⟨Except.error SMError.seatNotFound, m, []⟩
  | some seat =>
    if seatId = m.defaultSeatId then
      ⟨Except.error SMError.invariantViolation, m, []⟩
    else
      let devices := clearAssignments m.devices
        (seat.pointerDevices ++ seat.keyboardDevices)
      ⟨Except.ok (),
       { m with seats := m.seats.erase seatId, devices := devices },
       [⟨EventType.seatDestroyed, some seatId, Option.none,
         [("name", EvValue.str seat.name)]⟩]⟩

/-- `set_seat_state(seat_id, state)`. -/
def setSeatState (m : SeatManager) (seatId : String) (st : SeatState) : OpResult Unit :=
  match m.seats.get? seatId with
  | Option.none => ⟨Except.error SMError.seatNotFound, m, []⟩
  | some seat =>
    ⟨Except.ok (),
     { m with seats := m.seats.insert seatId { seat with state := st } },
     [⟨EventType.seatStateChanged, some seatId, Option.none,
       [("old_state", EvValue.seatState seat.state),
        ("new_state", EvValue.seatState st)]⟩]⟩

/-- `register_device(device)`: unconditional insert (last write wins). -/
def registerDevice (m : SeatManager) (device : InputDevice) : OpResult Unit :=
  ⟨Except.ok (),
   { m with devices := m.devices.insert device.id device },
   [⟨EventType.deviceAdded, Option.none, some device.id,
     [("name", EvValue.str device.name),
      ("type", EvValue.deviceType device.deviceType)]⟩]⟩

/-- `unassign_device(device_id)`: not-found check; no-op when the
assignment is falsy; otherwise remove from the seat's sets (if the seat
still exists), clear the assignment, emit `DEVICE_UNASSIGNED`. -/
def unassignDevice (m : SeatManager) (deviceId : String) : OpResult Unit :=
  match m.devices.get? deviceId with
  | Option.none => ⟨Except.error SMError.deviceNotFound, m, []⟩
  | some device =>
    if truthy device.seatId then
      match device.seatId with
      | some seatId =>
        let seats :=
          match m.seats.get? seatId with
          | Option.none => m.seats
          | some seat =>
            m.seats.insert seatId
              ((seat.removePointerDevice deviceId).removeKeyboardDevice deviceId)
        ⟨Except.ok (),
         { m with seats := seats,
                  devices := m.devices.insert deviceId { device with seatId := Option.none } },
         [⟨EventType.deviceUnassigned, some seatId, some deviceId,
           [("device_name", EvValue.str device.name)]⟩]⟩
      | Option.none => ⟨Except.ok (), m, []⟩
    else
      ⟨Except.ok (), m, []⟩

/-- `unregister_device(device_id)`: not-found check; unassign first when
the assignment is truthy; delete the device; emit `DEVICE_REMOVED`. -/
def unregisterDevice (m : SeatManager) (deviceId : String) : OpResult Unit :=
  match m.devices.get? deviceId with
  | Option.none => ⟨Except.error SMError.deviceNotFound, m, []⟩
  | some device =>
    let r := if truthy device.seatId then unassignDevice m deviceId
             else ⟨Except.ok (), m, []⟩
    ⟨Except.ok (),
     { r.state with devices := r.state.devices.erase deviceId },
     r.events ++ [⟨EventType.deviceRemoved, Option.none, some deviceId,
       [("name", EvValue.str device.name)]⟩]⟩

/-- `assign_device(device_id, seat_id, force)`: lookups, already-assigned
check, optional unassign from the current seat, then set the device's seat
reference and add it to the target seat's capability sets. The seat and
device are re-read after the unassign, mirroring the source's aliasing of
the mutable objects held in the dicts. -/
def assignDevice (m : SeatManager) (deviceId seatId : String) (force : Bool) :
    OpResult Unit :=
  match m.devices.get? deviceId with
  | Option.none => ⟨Except.error SMError.deviceNotFound, m, []⟩
  | some device =>
    match m.seats.get? seatId with
    | Option.none => ⟨Except.error SMError.seatNotFound, m, []⟩
    | some _ =>
      if truthy device.seatId && !force then
        ⟨Except.error SMError.deviceAlreadyAssigned, m, []⟩
      else
        let r := if truthy device.seatId then unassignDevice m deviceId
                 else ⟨Except.ok (), m, []⟩
        let m1 := r.state
        match m1.devices.get? deviceId, m1.seats.get? seatId with
        | some device1, some seat1 =>
          let device2 := { device1 with seatId := some seatId }
          let seat2 := if device2.hasCapability DeviceCapability.pointer
                       then seat1.addPointerDevice deviceId else seat1
          let seat3 := if device2.hasCapability DeviceCapability.keyboard
                       then seat2.addKeyboardDevice deviceId else seat2
          ⟨Except.ok (),
           { m1 with devices := m1.devices.insert deviceId device2,
                     seats := m1.seats.insert seatId seat3 },
           r.events ++ [⟨EventType.deviceAssigned, some seatId, some deviceId,
             [("device_name", EvValue.str device2.name),
              ("seat_name", EvValue.str seat3.name)]⟩]⟩
        | _, _ => ⟨Except.ok (), m1, r.events⟩

/-- `auto_assign_device(device_id)`: assign to the default seat. -/
def autoAssignDevice (m : SeatManager) (deviceId : String) : OpResult String :=
  let r := assignDevice m deviceId m.defaultSeatId false
  match r.result with
  | Except.ok _ => ⟨Except.ok m.defaultSeatId, r.state, r.events⟩
  | Except.error e => ⟨Except.error e, r.state, r.events⟩

/-- `route_pointer_motion(device_id, dx, dy)`: guards (unknown device,
falsy assignment, missing seat, inactive seat) return `None`; otherwise
move the cursor, clamp to the display bounds, emit `POINTER_MOTION`. -/
def routePointerMotion (m : SeatManager) (deviceId : String) (dx dy : Int) :
    OpResult (Option String) :=
  match m.devices.get? deviceId with
  | Option.none => ⟨Except.ok Option.none, m, []⟩
  | some device =>
    match device.seatId with
    | Option.none => ⟨Except.ok Option.none, m, []⟩
    | some sid =>
      if sid = "" then ⟨Except.ok Option.none, m, []⟩
      else
        match m.seats.get? sid with
        | Option.none => ⟨Except.ok Option.none, m, []⟩
        | some seat =>
          if seat.state ≠ SeatState.active then ⟨Except.ok Option.none, m, []⟩
          else
            let c1 := seat.cursor.moveBy dx dy
            let p := c1.position.clamp
              m.displayBounds.x m.displayBounds.y
              (m.displayBounds.x + m.displayBounds.width - 1)
              (m.displayBounds.y + m.displayBounds.height - 1)
            let seat' := { seat with cursor := { c1 with position := p } }
            ⟨Except.ok (some seat.id),
             { m with seats := m.seats.insert sid seat' },
             [⟨EventType.pointerMotion, some seat.id, some deviceId,
               [("dx", EvValue.int dx), ("dy", EvValue.int dy),
                ("x", EvValue.int p.x), ("y", EvValue.int p.y)]⟩]⟩

/-- `route_pointer_button(device_id, button, pressed)`: same guards as
motion, no state change, emits `POINTER_BUTTON`. -/
def routePointerButton (m : SeatManager) (deviceId : String) (button : Int)
    (pressed : Bool) : OpResult (Option String) :=
  match m.devices.get? deviceId with
  | Option.none => ⟨Except.ok Option.none, m, []⟩
  | some device =>
    match device.seatId with
    | Option.none => ⟨Except.ok Option.none, m, []⟩
    | some sid =>
      if sid = "" then ⟨Except.ok Option.none, m, []⟩
      else
        match m.seats.get? sid with
        | Option.none => ⟨Except.ok Option.none, m, []⟩
        | some seat =>
          if seat.state ≠ SeatState.active then ⟨Except.ok Option.none, m, []⟩
          else
            ⟨Except.ok (some seat.id), m,
             [⟨EventType.pointerButton, some seat.id, some deviceId,
               [("button", EvValue.int button), ("pressed", EvValue.bool pressed)]⟩]⟩

/-- `route_keyboard_key(device_id, key, pressed)`: same guards as motion,
no state change, emits `KEYBOARD_KEY`. -/
def routeKeyboardKey (m : SeatManager) (deviceId : String) (key : Int)
    (pressed : Bool) : OpResult (Option String) :=
  match m.devices.get? deviceId with
  | Option.none => ⟨Except.ok Option.none, m, []⟩
  | some device =>
    match device.seatId with
    | Option.none => ⟨Except.ok Option.none, m, []⟩
    | some sid =>
      if sid = "" then ⟨Except.ok Option.none, m, []⟩
      else
        match m.seats.get? sid with
        | Option.none => ⟨Except.ok Option.none, m, []⟩
        | some seat =>
          if seat.state ≠ SeatState.active then ⟨Except.ok Option.none, m, []⟩
          else
            ⟨Except.ok (some seat.id), m,
             [⟨EventType.keyboardKey, some seat.id, some deviceId,
               [("key", EvValue.int key), ("pressed", EvValue.bool pressed)]⟩]⟩

/-- `request_pointer_grab(seat_id, client_id, mode, surface_id)`: denied
(`false`, no change, no event) when the seat is already actively grabbed;
otherwise install a fresh `Grab` and emit `GRAB_STARTED`. -/
def requestPointerGrab (m : SeatManager) (seatId clientId : String)
    (mode : GrabMode) (surfaceId : Option String) (now : Nat) : OpResult Bool :=
  match m.seats.get? seatId with
  | Option.none => ⟨Except.error SMError.seatNotFound, m, []⟩
  | some seat =>
    if seat.isPointerGrabbed then ⟨Except.ok false, m, []⟩
    else
      let seat' := seat.setPointerGrab clientId mode surfaceId now
      ⟨Except.ok true,
       { m with seats := m.seats.insert seatId seat' },
       [⟨EventType.grabStarted, some seatId, Option.none,
         [("type", EvValue.str "pointer"), ("mode", EvValue.grabMode mode),
          ("client_id", EvValue.str clientId)]⟩]⟩

/-- `release_pointer_grab(seat_id)`: no-op when not actively grabbed;
otherwise clear the grab and emit `GRAB_ENDED`. -/
def releasePointerGrab (m : SeatManager) (seatId : String) : OpResult Unit :=
  match m.seats.get? seatId with
  | Option.none => ⟨Except.error SMError.seatNotFound, m, []⟩
  | some seat =>
    if !seat.isPointerGrabbed then ⟨Except.ok (), m, []⟩
    else
      ⟨Except.ok (),
       { m with seats := m.seats.insert seatId { seat with pointerGrab := Option.none } },
       [⟨EventType.grabEnded, some seatId, Option.none,
         [("type", EvValue.str "pointer")]⟩]⟩

/-- Discard the returned value of an operation, keeping error, state and
events (used to give all operations a common type in `runOp`). -/
def OpResult.forget {α : Type} (r : OpResult α) : OpResult Unit :=
  ⟨r.result.map (fun _ => ()), r.state, r.events⟩

/-- One public mutating or routing operation of the registry, with the
oracle inputs (fresh seat id, clock) made explicit. -/
inductive Op where
  | createSeat (name newId : String)
  | destroySeat (seatId : String)
  | setSeatState (seatId : String) (st : SeatState)
  | registerDevice (device : InputDevice)
  | unregisterDevice (deviceId : String)
  | assignDevice (deviceId seatId : String) (force : Bool)
  | unassignDevice (deviceId : String)
  | autoAssignDevice (deviceId : String)
  | routePointerMotion (deviceId : String) (dx dy : Int)
  | routePointerButton (deviceId : String) (button : Int) (pressed : Bool)
  | routeKeyboardKey (deviceId : String) (key : Int) (pressed : Bool)
  | requestPointerGrab (seatId clientId : String) (mode : GrabMode)
      (surfaceId : Option String) (now : Nat)
  | releasePointerGrab (seatId : String)
  | setDisplayBounds (b : DisplayBounds)

/-- Run one operation on a registry state. -/
def runOp : Op → SeatManager → OpResult Unit
  | Op.createSeat name newId, m => (createSeat m name newId).forget
  | Op.destroySeat seatId, m => destroySeat m seatId
  | Op.setSeatState seatId st, m => setSeatState m seatId st
  | Op.registerDevice device, m => registerDevice m device
  | Op.unregisterDevice deviceId, m => unregisterDevice m deviceId
  | Op.assignDevice deviceId seatId force, m => assignDevice m deviceId seatId force
  | Op.unassignDevice deviceId, m => unassignDevice m deviceId
  | Op.autoAssignDevice deviceId, m => (autoAssignDevice m deviceId).forget
  | Op.routePointerMotion deviceId dx dy, m => (routePointerMotion m deviceId dx dy).forget
  | Op.routePointerButton deviceId b p, m => (routePointerButton m deviceId b p).forget
  | Op.routeKeyboardKey deviceId k p, m => (routeKeyboardKey m deviceId k p).forget
  | Op.requestPointerGrab seatId clientId mode surfaceId now, m =>
      (requestPointerGrab m seatId clientId mode surfaceId now).forget
  | Op.releasePointerGrab seatId, m => releasePointerGrab m seatId
  | Op.setDisplayBounds b, m => setDisplayBounds m b

/-- Side condition modelling `uuid4` freshness: the generated seat id is
nonempty and collision-free. -/
def Op.freshOk : Op → SeatManager → Prop
  | Op.createSeat _ newId, m => newId ≠ "" ∧ m.seats.get? newId = Option.none
  | _, _ => True

/-- States reachable from a freshly constructed `SeatManager` by any
sequence of public operations (with collision-free generated seat ids). -/
inductive Reachable : SeatManager → Prop
  | init (name newId : String) (hId : newId ≠ "") :
      Reachable (SeatManager.init name newId)
  | step (op : Op) (m : SeatManager) (hm : Reachable m) (hf : op.freshOk m) :
      Reachable (runOp op m).state

/-- Side condition restricting `register_device` to identifiers that are
not currently members of any seat's device set (ruling out the stale
membership left behind by the last-write-wins re-registration). -/
def Op.regSafe : Op → SeatManager → Prop
  | Op.registerDevice d, m =>
      ∀ k s, m.seats.get? k = some s →
        d.id ∉ s.pointerDevices ∧ d.id ∉ s.keyboardDevices
  | _, _ => True

/-- Reachability restricted to registration calls whose identifier is not
currently in any seat's device set. -/
inductive ReachableSafe : SeatManager → Prop
  | init (name newId : String) (hId : newId ≠ "") :
      ReachableSafe (SeatManager.init name newId)
  | step (op : Op) (m : SeatManager) (hm : ReachableSafe m) (hf : op.freshOk m)
      (hr : op.regSafe m) : ReachableSafe (runOp op m).state

/-! ### Well-formedness invariants of reachable states -/

/-- Distinct keys (always true of a Python dict). -/
def NodupKeys {α : Type} (d : Dict α) : Prop := (Dict.keys d).Nodup

/-- Basic well-formedness of the seat map: distinct keys in both maps,
every seat is stored under its own (nonempty) identifier. -/
def SeatsWf (m : SeatManager) : Prop :=
  NodupKeys m.seats ∧ NodupKeys m.devices ∧
  ∀ k s, Dict.get? m.seats k = some s → k ≠ "" ∧ s.id = k

/-- The default seat is present in the registry. -/
def DefaultPresent (m : SeatManager) : Prop :=
  ∃ s, Dict.get? m.seats m.defaultSeatId = some s

/-- Device membership in a seat's sets is backed by the device's own
`seat_id` reference (the heart of the system-wide uniqueness argument). -/
def AssignedConsistent (m : SeatManager) : Prop :=
  ∀ k s, Dict.get? m.seats k = some s →
    ∀ d, (d ∈ s.pointerDevices ∨ d ∈ s.keyboardDevices) →
      ∃ dev, Dict.get? m.devices d = some dev ∧ dev.seatId = some k

/-- At most one seat's pointer-device set contains any given identifier. -/
def PointerUniq (m : SeatManager) : Prop :=
  ∀ d kA kB sA sB, Dict.get? m.seats kA = some sA →
    Dict.get? m.seats kB = some sB →
    d ∈ sA.pointerDevices → d ∈ sB.pointerDevices → kA = kB

/-- At most one seat's keyboard-device set contains any given identifier. -/
def KeyboardUniq (m : SeatManager) : Prop :=
  ∀ d kA kB sA sB, Dict.get? m.seats kA = some sA →
    Dict.get? m.seats kB = some sB →
    d ∈ sA.keyboardDevices → d ∈ sB.keyboardDevices → kA = kB

/-- The two basic invariants carried through every operation. -/
def WfD (m : SeatManager) : Prop := SeatsWf m ∧ DefaultPresent m

/-! ### Event listeners (`_emit_event` and the listener list) -/

/-- A listener callback; a raised exception is modelled as `Except.error`
carrying the message. -/
abbrev ListenerFn := Event → Except String Unit

/-- What the `try`/`except` around one listener call observes: `none` for a
normal return, `some msg` for a caught (logged) exception. -/
def listenerOutcome (cb : ListenerFn) (e : Event) : Option String :=
  match cb e with
  | Except.ok _ => Option.none
  | Except.error msg => some msg

/-- `add_event_listener`: append to the listener list. -/
def addEventListener (ls : List ListenerFn) (cb : ListenerFn) : List ListenerFn :=
  ls ++ [cb]

/-- `_emit_event`: call every listener in registration order, catching
each listener's exception (log and continue); returns the per-listener
outcomes in order. -/
def emitEvent : List ListenerFn → Event → List (Option String)
  | [], _ => []
  | cb :: rest, e => listenerOutcome cb e :: emitEvent rest e

/-- An operation together with the synchronous delivery of each of its
events to the listener list. -/
def runOpNotify (op : Op) (m : SeatManager) (ls : List ListenerFn) :
    OpResult Unit × List (List (Option String)) :=
  (runOp op m, (runOp op m).events.map (emitEvent ls))

/-! ### `route_pointer_motion` guard characterisation -/

/-- The four "not routed" conditions of `route_pointer_motion` as the
specification states them: unknown device, no assignment, dangling seat
reference, or seat not active. -/
def RouteBlocked (m : SeatManager) (deviceId : String) : Prop :=
  Dict.get? m.devices deviceId = Option.none ∨
  ∃ dev, Dict.get? m.devices deviceId = some dev ∧
    (dev.seatId = Option.none ∨
     (∃ sid, dev.seatId = some sid ∧ Dict.get? m.seats sid = Option.none) ∨
     (∃ sid seat, dev.seatId = some sid ∧ Dict.get? m.seats sid = some seat ∧
        seat.state ≠ SeatState.active))

/-! ### Concrete states used in counterexamples and witnesses -/

/-- A pointer-capability mouse with identifier `m`, as a caller would
construct it for `register_device`. -/
def devM : InputDevice :=
  ⟨"m", "mouse", DeviceType.pointer, [DeviceCapability.pointer], 0, 0, "",
   Option.none, true⟩

/-- A fresh registry (default seat id `S0`). -/
def mgr0 : SeatManager := SeatManager.init "seat0" "S0"

/-- `mgr0` plus an auxiliary seat `S1`. -/
def mgr2 : SeatManager := (createSeat mgr0 "aux" "S1").state

/-- `mgr2` after registering `m`, assigning it to `S0`, re-registering `m`
(last write wins), and assigning it to `S1`: the re-registration trace of
claim C1. -/
def mgrReReg : SeatManager :=
  (assignDevice (registerDevice
    (assignDevice (registerDevice mgr2 devM).state "m" "S0" false).state
    devM).state "m" "S1" false).state

/-- `mgr0` with device `m` registered and assigned to the default seat
(cursor at the origin, default 1920×1080 bounds). -/
def mgrRouted : SeatManager :=
  (assignDevice (registerDevice mgr0 devM).state "m" "S0" false).state

/-- `mgr0` with device `m` registered but unassigned. -/
def mgrReg : SeatManager := (registerDevice mgr0 devM).state

/-- The clamp applied by `route_pointer_motion`: componentwise into
`[x, x+width-1] × [y, y+height-1]` of the display bounds. -/
def clampToBounds (b : DisplayBounds) (p : Position) : Position :=
  p.clamp b.x b.y (b.x + b.width - 1) (b.y + b.height - 1)

/-- A listener that always raises. -/
def cbRaise : ListenerFn := fun _ => Except.error "boom"

/-- A listener that always returns normally. -/
def cbOk : ListenerFn := fun _ => Except.ok ()

/-! ### Dictionary and set lemmas -/

theorem Dict.get?_insert_self {α : Type} (d : Dict α) (k : String) (v : α) :
    Dict.get? (Dict.insert d k v) k = some v := by
  induction d with
  | nil => simp [Dict.insert, Dict.get?]
  | cons hd tl ih =>
    obtain ⟨k', v'⟩ := hd
    by_cases h : k' = k
    · simp [Dict.insert, Dict.get?, h]
    · simp [Dict.insert, Dict.get?, h, ih]

theorem Dict.get?_insert_ne {α : Type} (d : Dict α) (k k' : String) (v : α)
    (h : k' ≠ k) : Dict.get? (Dict.insert d k v) k' = Dict.get? d k' := by
  induction d with
  | nil =>
    simp only [Dict.insert, Dict.get?]
    rw [if_neg (fun hc => h hc.symm)]
  | cons hd tl ih =>
    obtain ⟨k0, v0⟩ := hd
    by_cases h0 : k0 = k
    · subst h0
      simp only [Dict.insert, if_pos rfl, Dict.get?]
      rw [if_neg (fun hc => h hc.symm), if_neg (fun hc => h hc.symm)]
    · simp only [Dict.insert, if_neg h0, Dict.get?]
      by_cases h1 : k0 = k'
      · rw [if_pos h1, if_pos h1]
      · rw [if_neg h1, if_neg h1, ih]

theorem Dict.get?_erase_ne {α : Type} (d : Dict α) (k k' : String)
    (h : k' ≠ k) : Dict.get? (Dict.erase d k) k' = Dict.get? d k' := by
  induction d with
  | nil => simp [Dict.erase, Dict.get?]
  | cons hd tl ih =>
    obtain ⟨k0, v0⟩ := hd
    by_cases h0 : k0 = k
    · subst h0
      rw [show Dict.erase ((k0, v0) :: tl) k0 = tl from by simp [Dict.erase]]
      simp only [Dict.get?]
      rw [if_neg (fun hc => h hc.symm)]
    · rw [show Dict.erase ((k0, v0) :: tl) k = (k0, v0) :: Dict.erase tl k from by
        simp [Dict.erase, h0]]
      simp only [Dict.get?]
      by_cases h1 : k0 = k'
      · rw [if_pos h1, if_pos h1]
      · rw [if_neg h1, if_neg h1, ih]

/-- Keys with no binding have `get? = none`. -/
theorem Dict.get?_eq_none_of_not_mem_keys {α : Type} (d : Dict α) (k : String)
    (h : k ∉ Dict.keys d) : Dict.get? d k = Option.none := by
  induction d with
  | nil => simp [Dict.get?]
  | cons hd tl ih =>
    obtain ⟨k0, v0⟩ := hd
    simp only [Dict.keys, List.map_cons, List.mem_cons, not_or] at h
    simp only [Dict.get?]
    rw [if_neg (fun hc => h.1 hc.symm)]
    exact ih h.2

theorem Dict.mem_keys_of_get?_eq_some {α : Type} (d : Dict α) (k : String)
    (v : α) (h : Dict.get? d k = some v) : k ∈ Dict.keys d := by
  by_contra hc
  rw [Dict.get?_eq_none_of_not_mem_keys d k hc] at h
  exact Option.noConfusion h

/-- With distinct keys, erasing a key removes its binding. -/
theorem Dict.get?_erase_self {α : Type} (d : Dict α) (k : String)
    (h : (Dict.keys d).Nodup) : Dict.get? (Dict.erase d k) k = Option.none := by
  induction d with
  | nil => simp [Dict.erase, Dict.get?]
  | cons hd tl ih =>
    obtain ⟨k0, v0⟩ := hd
    simp only [Dict.keys, List.map_cons, List.nodup_cons] at h
    by_cases h0 : k0 = k
    · subst h0
      simp only [Dict.erase, if_pos rfl]
      exact Dict.get?_eq_none_of_not_mem_keys tl k0 h.1
    · rw [show Dict.erase ((k0, v0) :: tl) k = (k0, v0) :: Dict.erase tl k from by
        simp [Dict.erase, h0]]
      simp only [Dict.get?]
      rw [if_neg h0]
      exact ih h.2

theorem Dict.keys_insert {α : Type} (d : Dict α) (k : String) (v : α) :
    Dict.keys (Dict.insert d k v) =
      if k ∈ Dict.keys d then Dict.keys d else Dict.keys d ++ [k] := by
  induction d with
  | nil => simp [Dict.insert, Dict.keys]
  | cons hd tl ih =>
    obtain ⟨k0, v0⟩ := hd
    by_cases h0 : k0 = k
    · subst h0
      simp [Dict.insert, Dict.keys]
    · simp only [Dict.insert, if_neg h0, Dict.keys, List.map_cons] at ih ⊢
      rw [ih]
      by_cases h1 : k ∈ List.map Prod.fst tl
      · rw [if_pos h1, if_pos (List.mem_cons_of_mem _ h1)]
      · rw [if_neg h1, if_neg (by
          intro hc
          rcases List.mem_cons.mp hc with hc | hc
          · exact h0 hc.symm
          · exact h1 hc)]
        simp

theorem Dict.keys_insert_nodup {α : Type} (d : Dict α) (k : String) (v : α)
    (h : (Dict.keys d).Nodup) : (Dict.keys (Dict.insert d k v)).Nodup := by
  rw [Dict.keys_insert]
  by_cases h1 : k ∈ Dict.keys d
  · rw [if_pos h1]; exact h
  · rw [if_neg h1]
    simp only [List.nodup_append, List.nodup_cons, List.nodup_nil]
    refine ⟨h, by simp, ?_⟩
    intro a ha hmem
    rw [List.mem_singleton] at hmem
    exact h1 (hmem ▸ ha)

theorem Dict.keys_erase_sublist {α : Type} (d : Dict α) (k : String) :
    List.Sublist (Dict.keys (Dict.erase d k)) (Dict.keys d) := by
  induction d with
  | nil => simp [Dict.erase, Dict.keys]
  | cons hd tl ih =>
    obtain ⟨k0, v0⟩ := hd
    by_cases h0 : k0 = k
    · simp only [Dict.erase, if_pos h0, Dict.keys, List.map_cons]
      exact List.sublist_cons_self _ _
    · simp only [Dict.erase, if_neg h0, Dict.keys, List.map_cons]
      exact List.Sublist.cons₂ _ ih

theorem Dict.keys_erase_nodup {α : Type} (d : Dict α) (k : String)
    (h : (Dict.keys d).Nodup) : (Dict.keys (Dict.erase d k)).Nodup := by
  exact List.Nodup.sublist (Dict.keys_erase_sublist d k) h

theorem mem_setAdd {l : List String} {a x : String} :
    a ∈ setAdd l x ↔ a ∈ l ∨ a = x := by
  by_cases h : x ∈ l
  · simp only [setAdd, if_pos h]
    constructor
    · exact Or.inl
    · rintro (h1 | rfl)
      · exact h1
      · exact h
  · simp [setAdd, if_neg h]

theorem mem_setDiscard {l : List String} {a x : String} :
    a ∈ setDiscard l x ↔ a ∈ l ∧ a ≠ x := by
  simp [setDiscard]

theorem nodupKeys_clearAssignments (ds : Dict InputDevice) (l : List String)
    (h : (Dict.keys ds).Nodup) : (Dict.keys (clearAssignments ds l)).Nodup := by
  induction l generalizing ds with
  | nil => simpa [clearAssignments] using h
  | cons hd tl ih =>
    simp only [clearAssignments, List.foldl_cons] at ih ⊢
    cases hget : Dict.get? ds hd with
    | none => simp only [hget]; exact ih _ h
    | some dev =>
      simp only [hget]
      exact ih _ (Dict.keys_insert_nodup _ _ _ h)

theorem get?_clearAssignments_not_mem (ds : Dict InputDevice) (l : List String)
    (d : String) (h : d ∉ l) :
    Dict.get? (clearAssignments ds l) d = Dict.get? ds d := by
  induction l generalizing ds with
  | nil => simp [clearAssignments]
  | cons hd tl ih =>
    simp only [List.mem_cons, not_or] at h
    simp only [clearAssignments, List.foldl_cons] at ih ⊢
    cases hget : Dict.get? ds hd with
    | none => simp only [hget]; exact ih _ h.2
    | some dev =>
      simp only [hget]
      rw [ih _ h.2, Dict.get?_insert_ne _ _ _ _ h.1]

theorem pointerUniq_of_assignedConsistent (m : SeatManager)
    (h : AssignedConsistent m) : PointerUniq m := by
  intro d kA kB sA sB hA hB hmA hmB
  obtain ⟨devA, hdA, hsA⟩ := h kA sA hA d (Or.inl hmA)
  obtain ⟨devB, hdB, hsB⟩ := h kB sB hB d (Or.inl hmB)
  rw [hdA] at hdB
  cases hdB
  rw [hsA] at hsB
  exact Option.some.inj hsB

theorem keyboardUniq_of_assignedConsistent (m : SeatManager)
    (h : AssignedConsistent m) : KeyboardUniq m := by
  intro d kA kB sA sB hA hB hmA hmB
  obtain ⟨devA, hdA, hsA⟩ := h kA sA hA d (Or.inr hmA)
  obtain ⟨devB, hdB, hsB⟩ := h kB sB hB d (Or.inr hmB)
  rw [hdA] at hdB
  cases hdB
  rw [hsA] at hsB
  exact Option.some.inj hsB

theorem seatsKeyWf_insert {seats : Dict Seat}
    (h : ∀ k s, Dict.get? seats k = some s → k ≠ "" ∧ s.id = k)
    {k0 : String} {s0 : Seat} (hk : k0 ≠ "") (hs : s0.id = k0) :
    ∀ k s, Dict.get? (Dict.insert seats k0 s0) k = some s → k ≠ "" ∧ s.id = k := by
  intro k s hget
  by_cases he : k = k0
  · subst he
    rw [Dict.get?_insert_self] at hget
    cases hget
    exact ⟨hk, hs⟩
  · rw [Dict.get?_insert_ne _ _ _ _ he] at hget
    exact h k s hget

theorem present_insert {α : Type} {d : Dict α} {k : String}
    (h : ∃ v, Dict.get? d k = some v) (k0 : String) (v0 : α) :
    ∃ v, Dict.get? (Dict.insert d k0 v0) k = some v := by
  by_cases he : k = k0
  · subst he; exact ⟨v0, Dict.get?_insert_self _ _ _⟩
  · obtain ⟨v, hv⟩ := h
    exact ⟨v, by rw [Dict.get?_insert_ne _ _ _ _ he]; exact hv⟩

theorem wfD_createSeat (m : SeatManager) (name newId : String)
    (h : WfD m) (hId : newId ≠ "") : WfD (createSeat m name newId).state := by
  obtain ⟨⟨hns, hnd, hkey⟩, hdef⟩ := h
  refine ⟨⟨Dict.keys_insert_nodup _ _ _ hns, hnd,
    seatsKeyWf_insert hkey hId rfl⟩, present_insert hdef _ _⟩

theorem wfD_setDisplayBounds (m : SeatManager) (b : DisplayBounds)
    (h : WfD m) : WfD (setDisplayBounds m b).state := h

theorem wfD_destroySeat (m : SeatManager) (seatId : String)
    (h : WfD m) : WfD (destroySeat m seatId).state := by
  obtain ⟨⟨hns, hnd, hkey⟩, hdef⟩ := h
  simp only [destroySeat]
  split
  · exact ⟨⟨hns, hnd, hkey⟩, hdef⟩
  · split
    · exact ⟨⟨hns, hnd, hkey⟩, hdef⟩
    · rename_i seat hget hne
      refine ⟨⟨Dict.keys_erase_nodup _ _ hns,
        nodupKeys_clearAssignments _ _ hnd, ?_⟩, ?_⟩
      · intro k s hk
        by_cases he : k = seatId
        · subst he
          rw [Dict.get?_erase_self _ _ hns] at hk
          exact Option.noConfusion hk
        · rw [Dict.get?_erase_ne _ _ _ he] at hk
          exact hkey k s hk
      · obtain ⟨s0, hs0⟩ := hdef
        exact ⟨s0, by rw [Dict.get?_erase_ne _ _ _ (fun hc => hne hc.symm)]; exact hs0⟩

theorem wfD_setSeatState (m : SeatManager) (seatId : String) (st : SeatState)
    (h : WfD m) : WfD (setSeatState m seatId st).state := by
  obtain ⟨⟨hns, hnd, hkey⟩, hdef⟩ := h
  simp only [setSeatState]
  split
  · exact ⟨⟨hns, hnd, hkey⟩, hdef⟩
  · rename_i seat hget
    refine ⟨⟨Dict.keys_insert_nodup _ _ _ hns, hnd,
      seatsKeyWf_insert hkey (hkey _ _ hget).1 (hkey _ _ hget).2⟩,
      present_insert hdef _ _⟩

theorem wfD_registerDevice (m : SeatManager) (device : InputDevice)
    (h : WfD m) : WfD (registerDevice m device).state := by
  obtain ⟨⟨hns, hnd, hkey⟩, hdef⟩ := h
  exact ⟨⟨hns, Dict.keys_insert_nodup _ _ _ hnd, hkey⟩, hdef⟩

theorem wfD_unassignDevice (m : SeatManager) (deviceId : String)
    (h : WfD m) : WfD (unassignDevice m deviceId).state := by
  obtain ⟨⟨hns, hnd, hkey⟩, hdef⟩ := h
  simp only [unassignDevice]
  split
  · exact ⟨⟨hns, hnd, hkey⟩, hdef⟩
  · split
    · split
      · rename_i device hget seatId hsid
        split
        · rename_i hseat
          exact ⟨⟨hns, Dict.keys_insert_nodup _ _ _ hnd, hkey⟩, hdef⟩
        · rename_i seat hseat
          refine ⟨⟨Dict.keys_insert_nodup _ _ _ hns,
            Dict.keys_insert_nodup _ _ _ hnd,
            seatsKeyWf_insert hkey (hkey _ _ hseat).1 (hkey _ _ hseat).2⟩,
            present_insert hdef _ _⟩
      · exact ⟨⟨hns, hnd, hkey⟩, hdef⟩
    · exact ⟨⟨hns, hnd, hkey⟩, hdef⟩

theorem wfD_unregisterDevice (m : SeatManager) (deviceId : String)
    (h : WfD m) : WfD (unregisterDevice m deviceId).state := by
  simp only [unregisterDevice]
  split
  · exact h
  · rename_i device hget
    have h1 : WfD (if truthy device.seatId then unassignDevice m deviceId
        else ⟨Except.ok (), m, []⟩).state := by
      split
      · exact wfD_unassignDevice m deviceId h
      · exact h
    obtain ⟨⟨hns, hnd, hkey⟩, hdef⟩ := h1
    exact ⟨⟨hns, Dict.keys_erase_nodup _ _ hnd, hkey⟩, hdef⟩

theorem wfD_assignDevice (m : SeatManager) (deviceId seatId : String)
    (force : Bool) (h : WfD m) : WfD (assignDevice m deviceId seatId force).state := by
  simp only [assignDevice]
  split
  · exact h
  rename_i device hdev
  split
  · exact h
  rename_i seat0 hseat0
  split
  · exact h
  rename_i hforce
  have h1 : WfD (if truthy device.seatId then unassignDevice m deviceId
      else ⟨Except.ok (), m, []⟩).state := by
    split
    · exact wfD_unassignDevice m deviceId h
    · exact h
  split
  case _ device1 seat1 hdev1 hseat1 =>
    obtain ⟨⟨hns, hnd, hkey⟩, hdef⟩ := h1
    refine ⟨⟨Dict.keys_insert_nodup _ _ _ hns,
      Dict.keys_insert_nodup _ _ _ hnd,
      seatsKeyWf_insert hkey (hkey _ _ hseat1).1 ?_⟩,
      present_insert hdef _ _⟩
    have hid := (hkey _ _ hseat1).2
    simp only [Seat.addKeyboardDevice, Seat.addPointerDevice]
    split <;> split <;> exact hid
  all_goals exact h1

theorem wfD_autoAssignDevice (m : SeatManager) (deviceId : String)
    (h : WfD m) : WfD (autoAssignDevice m deviceId).state := by
  simp only [autoAssignDevice]
  have h1 := wfD_assignDevice m deviceId m.defaultSeatId false h
  split <;> exact h1

theorem wfD_routePointerMotion (m : SeatManager) (deviceId : String)
    (dx dy : Int) (h : WfD m) : WfD (routePointerMotion m deviceId dx dy).state := by
  obtain ⟨⟨hns, hnd, hkey⟩, hdef⟩ := h
  simp only [routePointerMotion]
  split
  · exact ⟨⟨hns, hnd, hkey⟩, hdef⟩
  · split
    · exact ⟨⟨hns, hnd, hkey⟩, hdef⟩
    · split
      · exact ⟨⟨hns, hnd, hkey⟩, hdef⟩
      · split
        · exact ⟨⟨hns, hnd, hkey⟩, hdef⟩
        · split
          · exact ⟨⟨hns, hnd, hkey⟩, hdef⟩
          · rename_i device hdev sid hsid hne seat hseat hactive
            refine ⟨⟨Dict.keys_insert_nodup _ _ _ hns, hnd,
              seatsKeyWf_insert hkey (hkey _ _ hseat).1 (hkey _ _ hseat).2⟩,
              present_insert hdef _ _⟩

theorem wfD_routePointerButton (m : SeatManager) (deviceId : String)
    (button : Int) (pressed : Bool) (h : WfD m) :
    WfD (routePointerButton m deviceId button pressed).state := by
  simp only [routePointerButton]
  split
  · exact h
  · split
    · exact h
    · split
      · exact h
      · split
        · exact h
        · split <;> exact h

theorem wfD_routeKeyboardKey (m : SeatManager) (deviceId : String)
    (key : Int) (pressed : Bool) (h : WfD m) :
    WfD (routeKeyboardKey m deviceId key pressed).state := by
  simp only [routeKeyboardKey]
  split
  · exact h
  · split
    · exact h
    · split
      · exact h
      · split
        · exact h
        · split <;> exact h

theorem wfD_requestPointerGrab (m : SeatManager) (seatId clientId : String)
    (mode : GrabMode) (surfaceId : Option String) (now : Nat) (h : WfD m) :
    WfD (requestPointerGrab m seatId clientId mode surfaceId now).state := by
  obtain ⟨⟨hns, hnd, hkey⟩, hdef⟩ := h
  simp only [requestPointerGrab]
  split
  · exact ⟨⟨hns, hnd, hkey⟩, hdef⟩
  · split
    · exact ⟨⟨hns, hnd, hkey⟩, hdef⟩
    · rename_i seat hseat hgrab
      refine ⟨⟨Dict.keys_insert_nodup _ _ _ hns, hnd,
        seatsKeyWf_insert hkey (hkey _ _ hseat).1 (hkey _ _ hseat).2⟩,
        present_insert hdef _ _⟩

theorem wfD_releasePointerGrab (m : SeatManager) (seatId : String)
    (h : WfD m) : WfD (releasePointerGrab m seatId).state := by
  obtain ⟨⟨hns, hnd, hkey⟩, hdef⟩ := h
  simp only [releasePointerGrab]
  split
  · exact ⟨⟨hns, hnd, hkey⟩, hdef⟩
  · split
    · exact ⟨⟨hns, hnd, hkey⟩, hdef⟩
    · rename_i seat hseat hgrab
      refine ⟨⟨Dict.keys_insert_nodup _ _ _ hns, hnd,
        seatsKeyWf_insert hkey (hkey _ _ hseat).1 (hkey _ _ hseat).2⟩,
        present_insert hdef _ _⟩

theorem wfD_runOp (op : Op) (m : SeatManager) (hf : Op.freshOk op m)
    (h : WfD m) : WfD (runOp op m).state := by
  cases op with
  | createSeat name newId => exact wfD_createSeat m name newId h hf.1
  | destroySeat seatId => exact wfD_destroySeat m seatId h
  | setSeatState seatId st => exact wfD_setSeatState m seatId st h
  | registerDevice device => exact wfD_registerDevice m device h
  | unregisterDevice deviceId => exact wfD_unregisterDevice m deviceId h
  | assignDevice deviceId seatId force => exact wfD_assignDevice m deviceId seatId force h
  | unassignDevice deviceId => exact wfD_unassignDevice m deviceId h
  | autoAssignDevice deviceId => exact wfD_autoAssignDevice m deviceId h
  | routePointerMotion deviceId dx dy => exact wfD_routePointerMotion m deviceId dx dy h
  | routePointerButton deviceId b p => exact wfD_routePointerButton m deviceId b p h
  | routeKeyboardKey deviceId k p => exact wfD_routeKeyboardKey m deviceId k p h
  | requestPointerGrab seatId clientId mode surfaceId now =>
      exact wfD_requestPointerGrab m seatId clientId mode surfaceId now h
  | releasePointerGrab seatId => exact wfD_releasePointerGrab m seatId h
  | setDisplayBounds b => exact wfD_setDisplayBounds m b h

theorem wfD_init (name newId : String) (hId : newId ≠ "") :
    WfD (SeatManager.init name newId) := by
  refine ⟨⟨?_, ?_, ?_⟩, ?_⟩
  · simp [SeatManager.init, createSeat, Seat.init, Dict.insert, Dict.keys, NodupKeys]
  · simp [SeatManager.init, createSeat, NodupKeys, Dict.keys]
  · intro k s hk
    simp only [SeatManager.init, createSeat, Dict.insert, Dict.get?] at hk
    split at hk
    · rename_i he
      have he' : newId = k := he
      subst he'
      cases hk
      exact ⟨hId, rfl⟩
    · exact Option.noConfusion hk
  · refine ⟨Seat.init newId name, ?_⟩
    simp [SeatManager.init, createSeat, Seat.init, Dict.insert, Dict.get?]

/-- Every reachable state satisfies the basic invariants. -/
theorem reachable_wfD (m : SeatManager) (h : Reachable m) : WfD m := by
  induction h with
  | init name newId hId => exact wfD_init name newId hId
  | step op m hm hf ih => exact wfD_runOp op m hf ih

/-! ### Preservation of `AssignedConsistent` -/

theorem assignedConsistent_seatUpdate {m : SeatManager} (hAC : AssignedConsistent m)
    {k0 : String} {seat : Seat} (s' : Seat) (hseat : Dict.get? m.seats k0 = some seat)
    (hpd : s'.pointerDevices = seat.pointerDevices)
    (hkd : s'.keyboardDevices = seat.keyboardDevices) (b : DisplayBounds) (dflt : String) :
    AssignedConsistent ⟨Dict.insert m.seats k0 s', m.devices, b, dflt⟩ := by
  intro k s hk d hd
  have hk' : Dict.get? (Dict.insert m.seats k0 s') k = some s := hk
  show ∃ dev, Dict.get? m.devices d = some dev ∧ dev.seatId = some k
  by_cases he : k = k0
  · rw [he, Dict.get?_insert_self] at hk'
    cases hk'
    rw [hpd, hkd] at hd
    rw [he]
    exact hAC _ seat hseat d hd
  · rw [Dict.get?_insert_ne _ _ _ _ he] at hk'
    exact hAC k s hk' d hd

theorem ac_createSeat (m : SeatManager) (name newId : String)
    (hAC : AssignedConsistent m) : AssignedConsistent (createSeat m name newId).state := by
  intro k s hk d hd
  have hk' : Dict.get? (Dict.insert m.seats newId (Seat.init newId name)) k = some s := hk
  show ∃ dev, Dict.get? m.devices d = some dev ∧ dev.seatId = some k
  by_cases he : k = newId
  · rw [he, Dict.get?_insert_self] at hk'
    cases hk'
    rcases hd with hd | hd <;> simp [Seat.init] at hd
  · rw [Dict.get?_insert_ne _ _ _ _ he] at hk'
    exact hAC k s hk' d hd

theorem ac_setSeatState (m : SeatManager) (seatId : String) (st : SeatState)
    (hAC : AssignedConsistent m) : AssignedConsistent (setSeatState m seatId st).state := by
  simp only [setSeatState]
  split
  · exact hAC
  · rename_i seat hseat
    show AssignedConsistent (⟨Dict.insert m.seats seatId { seat with state := st },
      m.devices, m.displayBounds, m.defaultSeatId⟩ : SeatManager)
    exact assignedConsistent_seatUpdate hAC { seat with state := st } hseat rfl rfl _ _

theorem ac_registerDevice (m : SeatManager) (device : InputDevice)
    (hAC : AssignedConsistent m)
    (hreg : ∀ k s, Dict.get? m.seats k = some s →
      device.id ∉ s.pointerDevices ∧ device.id ∉ s.keyboardDevices) :
    AssignedConsistent (registerDevice m device).state := by
  intro k s hk d hd
  have hk' : Dict.get? m.seats k = some s := hk
  obtain ⟨dev, hdev, hsid⟩ := hAC k s hk' d hd
  show ∃ dev, Dict.get? (Dict.insert m.devices device.id device) d = some dev ∧
    dev.seatId = some k
  by_cases hed : d = device.id
  · rcases hd with hd | hd
    · rw [hed] at hd
      exact absurd hd (hreg k s hk').1
    · rw [hed] at hd
      exact absurd hd (hreg k s hk').2
  · exact ⟨dev, by rw [Dict.get?_insert_ne _ _ _ _ hed]; exact hdev, hsid⟩

theorem ac_destroySeat (m : SeatManager) (seatId : String)
    (hwf : SeatsWf m) (hAC : AssignedConsistent m) :
    AssignedConsistent (destroySeat m seatId).state := by
  obtain ⟨hns, hnd, hkey⟩ := hwf
  simp only [destroySeat]
  split
  · exact hAC
  · split
    · exact hAC
    · rename_i seatD hgetD hne
      intro k s hk d hd
      have hk' : Dict.get? (Dict.erase m.seats seatId) k = some s := hk
      show ∃ dev, Dict.get? (clearAssignments m.devices
          (seatD.pointerDevices ++ seatD.keyboardDevices)) d = some dev ∧
        dev.seatId = some k
      by_cases he : k = seatId
      · rw [he, Dict.get?_erase_self _ _ hns] at hk'
        exact Option.noConfusion hk'
      · rw [Dict.get?_erase_ne _ _ _ he] at hk'
        obtain ⟨dev, hdev, hsid⟩ := hAC k s hk' d hd
        have hnmem : d ∉ seatD.pointerDevices ++ seatD.keyboardDevices := by
          intro hmem
          have hmem' : d ∈ seatD.pointerDevices ∨ d ∈ seatD.keyboardDevices :=
            List.mem_append.mp hmem
          obtain ⟨dev', hdev', hsid'⟩ := hAC seatId seatD hgetD d hmem'
          rw [hdev] at hdev'
          cases hdev'
          rw [hsid] at hsid'
          exact he (Option.some.inj hsid')
        exact ⟨dev, by rw [get?_clearAssignments_not_mem _ _ _ hnmem]; exact hdev, hsid⟩

theorem ac_unassignDevice (m : SeatManager) (deviceId : String)
    (hAC : AssignedConsistent m) : AssignedConsistent (unassignDevice m deviceId).state := by
  simp only [unassignDevice]
  split
  · exact hAC
  rename_i device hget
  split
  · split
    · rename_i sid hsid
      split
      · rename_i hseat
        intro k s hk d' hd'
        have hk' : Dict.get? m.seats k = some s := hk
        show ∃ dev, Dict.get? (Dict.insert m.devices deviceId
            { device with seatId := Option.none }) d' = some dev ∧ dev.seatId = some k
        obtain ⟨dev, hdev, hsidk⟩ := hAC k s hk' d' hd'
        by_cases hed : d' = deviceId
        · rw [hed, hget] at hdev
          cases hdev
          rw [hsid] at hsidk
          have hks : sid = k := Option.some.inj hsidk
          rw [← hks, hseat] at hk'
          exact Option.noConfusion hk'
        · exact ⟨dev, by rw [Dict.get?_insert_ne _ _ _ _ hed]; exact hdev, hsidk⟩
      · rename_i seat hseat
        intro k s hk d' hd'
        have hk' : Dict.get? (Dict.insert m.seats sid
            ((seat.removePointerDevice deviceId).removeKeyboardDevice deviceId)) k
            = some s := hk
        show ∃ dev, Dict.get? (Dict.insert m.devices deviceId
            { device with seatId := Option.none }) d' = some dev ∧ dev.seatId = some k
        by_cases he : k = sid
        · rw [he, Dict.get?_insert_self] at hk'
          cases hk'
          have hd'' : (d' ∈ seat.pointerDevices ∨ d' ∈ seat.keyboardDevices) ∧
              d' ≠ deviceId := by
            rcases hd' with hd' | hd'
            · have hm := mem_setDiscard.mp
                (show d' ∈ setDiscard seat.pointerDevices deviceId from hd')
              exact ⟨Or.inl hm.1, hm.2⟩
            · have hm := mem_setDiscard.mp
                (show d' ∈ setDiscard seat.keyboardDevices deviceId from hd')
              exact ⟨Or.inr hm.1, hm.2⟩
          obtain ⟨dev, hdev, hsidk⟩ := hAC sid seat hseat d' hd''.1
          rw [he]
          exact ⟨dev, by rw [Dict.get?_insert_ne _ _ _ _ hd''.2]; exact hdev, hsidk⟩
        · rw [Dict.get?_insert_ne _ _ _ _ he] at hk'
          obtain ⟨dev, hdev, hsidk⟩ := hAC k s hk' d' hd'
          by_cases hed : d' = deviceId
          · rw [hed, hget] at hdev
            cases hdev
            rw [hsid] at hsidk
            exact absurd (Option.some.inj hsidk).symm he
          · exact ⟨dev, by rw [Dict.get?_insert_ne _ _ _ _ hed]; exact hdev, hsidk⟩
    · exact hAC
  · exact hAC

/-- After `unassign_device` the device's stored record has a falsy
(cleared) seat reference. -/
theorem unassignDevice_clears (m : SeatManager) (deviceId : String)
    (device : InputDevice) (hget : Dict.get? m.devices deviceId = some device) :
    ∃ dev', Dict.get? (unassignDevice m deviceId).state.devices deviceId = some dev' ∧
      truthy dev'.seatId = false := by
  simp only [unassignDevice, hget]
  split
  · rename_i ht
    split
    · rename_i sid hsid
      split
      · exact ⟨{ device with seatId := Option.none },
          Dict.get?_insert_self _ _ _, rfl⟩
      · exact ⟨{ device with seatId := Option.none },
          Dict.get?_insert_self _ _ _, rfl⟩
    · rename_i hsid
      rw [hsid] at ht
      simp [truthy] at ht
  · rename_i ht
    refine ⟨device, hget, ?_⟩
    revert ht
    cases truthy device.seatId <;> simp

theorem ac_unregisterDevice (m : SeatManager) (deviceId : String)
    (h : WfD m) (hAC : AssignedConsistent m) :
    AssignedConsistent (unregisterDevice m deviceId).state := by
  simp only [unregisterDevice]
  split
  · exact hAC
  rename_i device hget
  have hr : AssignedConsistent (if truthy device.seatId then unassignDevice m deviceId
      else ⟨Except.ok (), m, []⟩).state := by
    split
    · exact ac_unassignDevice m deviceId hAC
    · exact hAC
  have hrwf : WfD (if truthy device.seatId then unassignDevice m deviceId
      else ⟨Except.ok (), m, []⟩).state := by
    split
    · exact wfD_unassignDevice m deviceId h
    · exact h
  have hdevr : ∃ dev', Dict.get? (if truthy device.seatId then unassignDevice m deviceId
      else ⟨Except.ok (), m, []⟩).state.devices deviceId = some dev' ∧
      truthy dev'.seatId = false := by
    split
    · exact unassignDevice_clears m deviceId device hget
    · rename_i hfalsy
      refine ⟨device, hget, ?_⟩
      revert hfalsy
      cases truthy device.seatId <;> simp
  obtain ⟨dev', hdev', hfal⟩ := hdevr
  intro k s hk d' hd'
  have hk' : Dict.get? (if truthy device.seatId then unassignDevice m deviceId
      else ⟨Except.ok (), m, []⟩).state.seats k = some s := hk
  obtain ⟨dev, hdev, hsidk⟩ := hr k s hk' d' hd'
  show ∃ dev, Dict.get? (Dict.erase (if truthy device.seatId then unassignDevice m deviceId
      else ⟨Except.ok (), m, []⟩).state.devices deviceId) d' = some dev ∧
    dev.seatId = some k
  by_cases hed : d' = deviceId
  · rw [hed, hdev'] at hdev
    cases hdev
    cases hsz : dev'.seatId with
    | none =>
      rw [hsz] at hsidk
      exact Option.noConfusion hsidk
    | some z =>
      rw [hsz] at hsidk hfal
      simp only [truthy, decide_eq_false_iff_not, not_not] at hfal
      have hkz : z = k := Option.some.inj hsidk
      have hkne := (hrwf.1.2.2 k s hk').1
      exact absurd (by rw [← hkz, hfal]) hkne
  · exact ⟨dev, by rw [Dict.get?_erase_ne _ _ _ hed]; exact hdev, hsidk⟩

/-- Core of `assign_device`: inserting the re-referenced device and the
seat with (at most) the device added to its sets keeps membership
consistent, provided the device's prior reference was falsy. -/
theorem ac_assign_core (m1 : SeatManager) (deviceId seatId : String)
    (device1 : InputDevice) (seat1 seat3 : Seat) (b : DisplayBounds) (dflt : String)
    (hwf1 : ∀ k s, Dict.get? m1.seats k = some s → k ≠ "" ∧ s.id = k)
    (hAC1 : AssignedConsistent m1)
    (hdev1 : Dict.get? m1.devices deviceId = some device1)
    (hseat1 : Dict.get? m1.seats seatId = some seat1)
    (hfal : truthy device1.seatId = false)
    (hpd : ∀ x, x ∈ seat3.pointerDevices → x ∈ seat1.pointerDevices ∨ x = deviceId)
    (hkd : ∀ x, x ∈ seat3.keyboardDevices → x ∈ seat1.keyboardDevices ∨ x = deviceId) :
    AssignedConsistent ⟨Dict.insert m1.seats seatId seat3,
      Dict.insert m1.devices deviceId { device1 with seatId := some seatId }, b, dflt⟩ := by
  intro k s hk d2 hd2
  have hk' : Dict.get? (Dict.insert m1.seats seatId seat3) k = some s := hk
  show ∃ dev, Dict.get? (Dict.insert m1.devices deviceId
      { device1 with seatId := some seatId }) d2 = some dev ∧ dev.seatId = some k
  by_cases hed : d2 = deviceId
  · by_cases he : k = seatId
    · refine ⟨{ device1 with seatId := some seatId }, ?_, ?_⟩
      · rw [hed]
        exact Dict.get?_insert_self _ _ _
      · rw [he]
    · exfalso
      rw [Dict.get?_insert_ne _ _ _ _ he] at hk'
      rw [hed] at hd2
      obtain ⟨dev, hdev, hsidk⟩ := hAC1 k s hk' deviceId hd2
      rw [hdev1] at hdev
      cases hdev
      cases hsz : device1.seatId with
      | none =>
        rw [hsz] at hsidk
        exact Option.noConfusion hsidk
      | some z =>
        rw [hsz] at hfal hsidk
        simp only [truthy, decide_eq_false_iff_not, not_not] at hfal
        have hzk : z = k := Option.some.inj hsidk
        exact (hwf1 k s hk').1 (by rw [← hzk, hfal])
  · by_cases he : k = seatId
    · rw [he, Dict.get?_insert_self] at hk'
      cases hk'
      have hd2' : d2 ∈ seat1.pointerDevices ∨ d2 ∈ seat1.keyboardDevices := by
        rcases hd2 with hd2 | hd2
        · rcases hpd d2 hd2 with hmm | hmm
          · exact Or.inl hmm
          · exact absurd hmm hed
        · rcases hkd d2 hd2 with hmm | hmm
          · exact Or.inr hmm
          · exact absurd hmm hed
      obtain ⟨dev, hdev, hsidk⟩ := hAC1 seatId seat1 hseat1 d2 hd2'
      rw [he]
      exact ⟨dev, by rw [Dict.get?_insert_ne _ _ _ _ hed]; exact hdev, hsidk⟩
    · rw [Dict.get?_insert_ne _ _ _ _ he] at hk'
      obtain ⟨dev, hdev, hsidk⟩ := hAC1 k s hk' d2 hd2
      exact ⟨dev, by rw [Dict.get?_insert_ne _ _ _ _ hed]; exact hdev, hsidk⟩

theorem ac_assignDevice (m : SeatManager) (deviceId seatId : String) (force : Bool)
    (h : WfD m) (hAC : AssignedConsistent m) :
    AssignedConsistent (assignDevice m deviceId seatId force).state := by
  simp only [assignDevice]
  split
  · exact hAC
  rename_i device hdevm
  split
  · exact hAC
  rename_i seat0 hseat0
  split
  · exact hAC
  rename_i hforce
  have hr : AssignedConsistent (if truthy device.seatId then unassignDevice m deviceId
      else ⟨Except.ok (), m, []⟩).state := by
    split
    · exact ac_unassignDevice m deviceId hAC
    · exact hAC
  have hrwf : WfD (if truthy device.seatId then unassignDevice m deviceId
      else ⟨Except.ok (), m, []⟩).state := by
    split
    · exact wfD_unassignDevice m deviceId h
    · exact h
  have hdevr : ∃ dev', Dict.get? (if truthy device.seatId then unassignDevice m deviceId
      else ⟨Except.ok (), m, []⟩).state.devices deviceId = some dev' ∧
      truthy dev'.seatId = false := by
    split
    · exact unassignDevice_clears m deviceId device hdevm
    · rename_i hfalsy
      refine ⟨device, hdevm, ?_⟩
      revert hfalsy
      cases truthy device.seatId <;> simp
  obtain ⟨dev', hdev', hfal⟩ := hdevr
  split
  case _ device1 seat1 hdev1 hseat1 =>
    have hd1 : device1 = dev' := by
      rw [hdev1] at hdev'
      exact Option.some.inj hdev'
    refine ac_assign_core _ deviceId seatId device1 seat1 _ _ _
      hrwf.1.2.2 hr hdev1 hseat1 (hd1 ▸ hfal) ?_ ?_
    · intro x hx
      split at hx
      · have hx' : x ∈ (if ({ device1 with seatId := some seatId } :
            InputDevice).hasCapability DeviceCapability.pointer
            then seat1.addPointerDevice deviceId else seat1).pointerDevices := hx
        split at hx'
        · have hx'' : x ∈ setAdd seat1.pointerDevices deviceId := hx'
          exact mem_setAdd.mp hx''
        · exact Or.inl hx'
      · have hx' : x ∈ (if ({ device1 with seatId := some seatId } :
            InputDevice).hasCapability DeviceCapability.pointer
            then seat1.addPointerDevice deviceId else seat1).pointerDevices := hx
        split at hx'
        · have hx'' : x ∈ setAdd seat1.pointerDevices deviceId := hx'
          exact mem_setAdd.mp hx''
        · exact Or.inl hx'
    · intro x hx
      split at hx
      · have hx' : x ∈ setAdd (if ({ device1 with seatId := some seatId } :
            InputDevice).hasCapability DeviceCapability.pointer
            then seat1.addPointerDevice deviceId else seat1).keyboardDevices
            deviceId := hx
        rcases mem_setAdd.mp hx' with hmm | hmm
        · have hmm' : x ∈ seat1.keyboardDevices := by
            revert hmm
            split
            · intro hmm
              exact hmm
            · intro hmm
              exact hmm
          exact Or.inl hmm'
        · exact Or.inr hmm
      · have hx' : x ∈ (if ({ device1 with seatId := some seatId } :
            InputDevice).hasCapability DeviceCapability.pointer
            then seat1.addPointerDevice deviceId else seat1).keyboardDevices := hx
        have hx'' : x ∈ seat1.keyboardDevices := by
          revert hx'
          split
          · intro hx'
            exact hx'
          · intro hx'
            exact hx'
        exact Or.inl hx''
  all_goals exact hr

theorem ac_autoAssignDevice (m : SeatManager) (deviceId : String)
    (h : WfD m) (hAC : AssignedConsistent m) :
    AssignedConsistent (autoAssignDevice m deviceId).state := by
  simp only [autoAssignDevice]
  have h1 := ac_assignDevice m deviceId m.defaultSeatId false h hAC
  split <;> exact h1

theorem ac_routePointerMotion (m : SeatManager) (deviceId : String) (dx dy : Int)
    (hAC : AssignedConsistent m) :
    AssignedConsistent (routePointerMotion m deviceId dx dy).state := by
  simp only [routePointerMotion]
  split
  · exact hAC
  split
  · exact hAC
  split
  · exact hAC
  split
  · exact hAC
  split
  · exact hAC
  rename_i seat hseat hactive
  refine assignedConsistent_seatUpdate hAC ?_ hseat ?_ ?_ _ _ <;> rfl

theorem ac_routePointerButton (m : SeatManager) (deviceId : String)
    (button : Int) (pressed : Bool) (hAC : AssignedConsistent m) :
    AssignedConsistent (routePointerButton m deviceId button pressed).state := by
  simp only [routePointerButton]
  split
  · exact hAC
  split
  · exact hAC
  split
  · exact hAC
  split
  · exact hAC
  split
  · exact hAC
  exact hAC

theorem ac_routeKeyboardKey (m : SeatManager) (deviceId : String)
    (key : Int) (pressed : Bool) (hAC : AssignedConsistent m) :
    AssignedConsistent (routeKeyboardKey m deviceId key pressed).state := by
  simp only [routeKeyboardKey]
  split
  · exact hAC
  split
  · exact hAC
  split
  · exact hAC
  split
  · exact hAC
  split
  · exact hAC
  exact hAC

theorem ac_requestPointerGrab (m : SeatManager) (seatId clientId : String)
    (mode : GrabMode) (surfaceId : Option String) (now : Nat)
    (hAC : AssignedConsistent m) :
    AssignedConsistent (requestPointerGrab m seatId clientId mode surfaceId now).state := by
  simp only [requestPointerGrab]
  split
  · exact hAC
  split
  · exact hAC
  rename_i seat hseat hgrab
  refine assignedConsistent_seatUpdate hAC ?_ hseat ?_ ?_ _ _ <;> rfl

theorem ac_releasePointerGrab (m : SeatManager) (seatId : String)
    (hAC : AssignedConsistent m) :
    AssignedConsistent (releasePointerGrab m seatId).state := by
  simp only [releasePointerGrab]
  split
  · exact hAC
  split
  · exact hAC
  rename_i seat hseat hgrab
  refine assignedConsistent_seatUpdate hAC ?_ hseat ?_ ?_ _ _ <;> rfl

theorem ac_runOp (op : Op) (m : SeatManager) (hr : Op.regSafe op m)
    (h : WfD m) (hAC : AssignedConsistent m) :
    AssignedConsistent (runOp op m).state := by
  cases op with
  | createSeat name newId => exact ac_createSeat m name newId hAC
  | destroySeat seatId => exact ac_destroySeat m seatId h.1 hAC
  | setSeatState seatId st => exact ac_setSeatState m seatId st hAC
  | registerDevice device => exact ac_registerDevice m device hAC hr
  | unregisterDevice deviceId => exact ac_unregisterDevice m deviceId h hAC
  | assignDevice deviceId seatId force => exact ac_assignDevice m deviceId seatId force h hAC
  | unassignDevice deviceId => exact ac_unassignDevice m deviceId hAC
  | autoAssignDevice deviceId => exact ac_autoAssignDevice m deviceId h hAC
  | routePointerMotion deviceId dx dy => exact ac_routePointerMotion m deviceId dx dy hAC
  | routePointerButton deviceId b p => exact ac_routePointerButton m deviceId b p hAC
  | routeKeyboardKey deviceId k p => exact ac_routeKeyboardKey m deviceId k p hAC
  | requestPointerGrab seatId clientId mode surfaceId now =>
      exact ac_requestPointerGrab m seatId clientId mode surfaceId now hAC
  | releasePointerGrab seatId => exact ac_releasePointerGrab m seatId hAC
  | setDisplayBounds b => exact hAC

theorem ac_init (name newId : String) :
    AssignedConsistent (SeatManager.init name newId) := by
  intro k s hk d hd
  simp only [SeatManager.init, createSeat, Dict.insert, Dict.get?] at hk
  split at hk
  · cases hk
    rcases hd with hd | hd <;> simp [Seat.init] at hd
  · exact Option.noConfusion hk

/-- Every safely-reachable state satisfies all three invariants. -/
theorem reachableSafe_inv (m : SeatManager) (h : ReachableSafe m) :
    WfD m ∧ AssignedConsistent m := by
  induction h with
  | init name newId hId => exact ⟨wfD_init name newId hId, ac_init name newId⟩
  | step op m hm hf hr ih =>
      exact ⟨wfD_runOp op m hf ih.1, ac_runOp op m hr ih.1 ih.2⟩

theorem emitEvent_length (ls : List ListenerFn) (e : Event) :
    (emitEvent ls e).length = ls.length := by
  induction ls with
  | nil => rfl
  | cons cb rest ih => simp [emitEvent, ih]

theorem emitEvent_getElem (ls : List ListenerFn) (e : Event) (i : Nat)
    (cb : ListenerFn) (h : ls[i]? = some cb) :
    (emitEvent ls e)[i]? = some (listenerOutcome cb e) := by
  induction ls generalizing i with
  | nil => simp at h
  | cons hd rest ih =>
    cases i with
    | zero =>
      simp only [List.getElem?_cons_zero] at h
      cases h
      simp [emitEvent]
    | succ j =>
      simp only [List.getElem?_cons_succ] at h
      simpa [emitEvent] using ih j h

/-! ### Claim theorems -/

theorem assignDevice_error_state (m : SeatManager) (d s : String) (f : Bool)
    (e : SMError) (h : (assignDevice m d s f).result = Except.error e) :
    (assignDevice m d s f).state = m := by
  revert h
  simp only [assignDevice]
  split
  · intro _
    rfl
  split
  · intro _
    rfl
  split
  · intro _
    rfl
  split
  · intro h
    exact absurd h (by simp)
  · intro h
    exact absurd h (by simp)

theorem routePointerMotion_result_ok (m : SeatManager) (d : String) (dx dy : Int) :
    ∃ v, (routePointerMotion m d dx dy).result = Except.ok v := by
  simp only [routePointerMotion]
  split
  · exact ⟨_, rfl⟩
  split
  · exact ⟨_, rfl⟩
  split
  · exact ⟨_, rfl⟩
  split
  · exact ⟨_, rfl⟩
  split
  · exact ⟨_, rfl⟩
  exact ⟨_, rfl⟩

theorem routePointerButton_result_ok (m : SeatManager) (d : String) (b : Int)
    (p : Bool) : ∃ v, (routePointerButton m d b p).result = Except.ok v := by
  simp only [routePointerButton]
  split
  · exact ⟨_, rfl⟩
  split
  · exact ⟨_, rfl⟩
  split
  · exact ⟨_, rfl⟩
  split
  · exact ⟨_, rfl⟩
  split
  · exact ⟨_, rfl⟩
  exact ⟨_, rfl⟩

theorem routeKeyboardKey_result_ok (m : SeatManager) (d : String) (k : Int)
    (p : Bool) : ∃ v, (routeKeyboardKey m d k p).result = Except.ok v := by
  simp only [routeKeyboardKey]
  split
  · exact ⟨_, rfl⟩
  split
  · exact ⟨_, rfl⟩
  split
  · exact ⟨_, rfl⟩
  split
  · exact ⟨_, rfl⟩
  split
  · exact ⟨_, rfl⟩
  exact ⟨_, rfl⟩

/-- Claim C7: every mutating registry operation that fails with an error
leaves the registry state exactly as it was before the call
(validate-then-mutate: all failing validation happens before any state is
touched). -/
theorem c7_validate_then_mutate (op : Op) (m : SeatManager) (e : SMError)
    (h : (runOp op m).result = Except.error e) : (runOp op m).state = m := by
  cases op with
  | createSeat name newId =>
    exact absurd h (by simp [runOp, createSeat, OpResult.forget, Except.map])
  | destroySeat seatId =>
    revert h
    simp only [runOp, destroySeat]
    split
    · intro _
      rfl
    split
    · intro _
      rfl
    · intro h
      exact absurd h (by simp)
  | setSeatState seatId st =>
    revert h
    simp only [runOp, setSeatState]
    split
    · intro _
      rfl
    · intro h
      exact absurd h (by simp)
  | registerDevice device =>
    exact absurd h (by simp [runOp, registerDevice])
  | unregisterDevice deviceId =>
    revert h
    simp only [runOp, unregisterDevice]
    split
    · intro _
      rfl
    · intro h
      exact absurd h (by simp)
  | assignDevice deviceId seatId force =>
    exact assignDevice_error_state m deviceId seatId force e h
  | unassignDevice deviceId =>
    revert h
    simp only [runOp, unassignDevice]
    split
    · intro _
      rfl
    split
    · split
      · split
        · intro h
          exact absurd h (by simp)
        · intro h
          exact absurd h (by simp)
      · intro h
        exact absurd h (by simp)
    · intro h
      exact absurd h (by simp)
  | autoAssignDevice deviceId =>
    revert h
    simp only [runOp, autoAssignDevice, OpResult.forget]
    split
    · intro h
      exact absurd h (by simp [Except.map])
    · rename_i e1 heq
      intro h
      exact assignDevice_error_state m deviceId m.defaultSeatId false e1 heq
  | routePointerMotion deviceId dx dy =>
    obtain ⟨v, hv⟩ := routePointerMotion_result_ok m deviceId dx dy
    exfalso
    have h' : (Except.map (fun _ => ())
        (routePointerMotion m deviceId dx dy).result : Except SMError Unit)
        = Except.error e := h
    rw [hv] at h'
    exact absurd h' (by simp [Except.map])
  | routePointerButton deviceId b p =>
    obtain ⟨v, hv⟩ := routePointerButton_result_ok m deviceId b p
    exfalso
    have h' : (Except.map (fun _ => ())
        (routePointerButton m deviceId b p).result : Except SMError Unit)
        = Except.error e := h
    rw [hv] at h'
    exact absurd h' (by simp [Except.map])
  | routeKeyboardKey deviceId k p =>
    obtain ⟨v, hv⟩ := routeKeyboardKey_result_ok m deviceId k p
    exfalso
    have h' : (Except.map (fun _ => ())
        (routeKeyboardKey m deviceId k p).result : Except SMError Unit)
        = Except.error e := h
    rw [hv] at h'
    exact absurd h' (by simp [Except.map])
  | requestPointerGrab seatId clientId mode surfaceId now =>
    revert h
    simp only [runOp, requestPointerGrab, OpResult.forget]
    split
    · intro _
      rfl
    split
    · intro h
      exact absurd h (by simp [Except.map])
    · intro h
      exact absurd h (by simp [Except.map])
  | releasePointerGrab seatId =>
    revert h
    simp only [runOp, releasePointerGrab]
    split
    · intro _
      rfl
    split
    · intro h
      exact absurd h (by simp)
    · intro h
      exact absurd h (by simp)
  | setDisplayBounds b =>
    exact absurd h (by simp [runOp, setDisplayBounds])

/-- Witness for C7 at a concrete failing call: destroying an unknown seat
fails with seat-not-found and leaves the fresh registry unchanged. -/
theorem c7_witness :
    (runOp (Op.destroySeat "nope") mgr0).result = Except.error SMError.seatNotFound ∧
    (runOp (Op.destroySeat "nope") mgr0).state = mgr0 :=
  ⟨by decide, c7_validate_then_mutate (Op.destroySeat "nope") mgr0
    SMError.seatNotFound (by decide)⟩

/-- Claim C2: a pointer-grab request on seat `a` (granted or denied)
leaves every other seat `b` untouched: its stored record, hence its
`is_pointer_grabbed` value, cursor position and device sets, are exactly
as before. -/
theorem c2_grab_independence (m : SeatManager) (a b clientId : String)
    (mode : GrabMode) (surfaceId : Option String) (now : Nat) (sa sb : Seat)
    (hA : Dict.get? m.seats a = some sa) (hne : b ≠ a)
    (hB : Dict.get? m.seats b = some sb) :
    Dict.get? (requestPointerGrab m a clientId mode surfaceId now).state.seats b
      = some sb ∧
    ∃ sb', Dict.get? (requestPointerGrab m a clientId mode surfaceId now).state.seats b
        = some sb' ∧
      sb'.isPointerGrabbed = sb.isPointerGrabbed ∧
      sb'.cursor.position = sb.cursor.position ∧
      sb'.pointerDevices = sb.pointerDevices ∧
      sb'.keyboardDevices = sb.keyboardDevices := by
  have hmain : Dict.get?
      (requestPointerGrab m a clientId mode surfaceId now).state.seats b = some sb := by
    simp only [requestPointerGrab, hA]
    split
    · exact hB
    · show Dict.get? (Dict.insert m.seats a
        (sa.setPointerGrab clientId mode surfaceId now)) b = some sb
      rw [Dict.get?_insert_ne _ _ _ _ hne]
      exact hB
  exact ⟨hmain, sb, hmain, rfl, rfl, rfl, rfl⟩

/-- Witness for C2: granting a grab on `S0` leaves `S1` exactly as it was. -/
theorem c2_witness :
    Dict.get? (requestPointerGrab mgr2 "S0" "game" GrabMode.pointerLock
      Option.none 0).state.seats "S1" = some (Seat.init "S1" "aux") :=
  (c2_grab_independence mgr2 "S0" "S1" "game" GrabMode.pointerLock Option.none 0
    (Seat.init "S0" "seat0") (Seat.init "S1" "aux")
    (by decide) (by decide) (by decide)).1

/-- Claim C3: a pointer-grab request on an actively grabbed seat returns
false with no state change and no event (in particular the stored grab is
untouched); on a seat without an active grab it installs the new grab,
emits `GRAB_STARTED`, and returns true. -/
theorem c3_grab_denial_and_grant (m : SeatManager) (seatId clientId : String)
    (mode : GrabMode) (surfaceId : Option String) (now : Nat) (sa : Seat)
    (hA : Dict.get? m.seats seatId = some sa) :
    (sa.isPointerGrabbed = true →
      requestPointerGrab m seatId clientId mode surfaceId now
        = ⟨Except.ok false, m, []⟩) ∧
    (sa.isPointerGrabbed = false →
      (requestPointerGrab m seatId clientId mode surfaceId now).result
        = Except.ok true ∧
      Dict.get? (requestPointerGrab m seatId clientId mode surfaceId now).state.seats
        seatId = some { sa with pointerGrab := some ⟨mode, clientId, surfaceId, now⟩ } ∧
      (∀ k, k ≠ seatId →
        Dict.get? (requestPointerGrab m seatId clientId mode surfaceId now).state.seats k
          = Dict.get? m.seats k) ∧
      (requestPointerGrab m seatId clientId mode surfaceId now).events
        = [⟨EventType.grabStarted, some seatId, Option.none,
            [("type", EvValue.str "pointer"), ("mode", EvValue.grabMode mode),
             ("client_id", EvValue.str clientId)]⟩]) := by
  constructor
  · intro hg
    simp [requestPointerGrab, hA, hg]
  · intro hg
    refine ⟨?_, ?_, ?_, ?_⟩
    · simp [requestPointerGrab, hA, hg]
    · simp only [requestPointerGrab, hA, hg]
      show Dict.get? (Dict.insert m.seats seatId
        (sa.setPointerGrab clientId mode surfaceId now)) seatId
        = some { sa with pointerGrab := some ⟨mode, clientId, surfaceId, now⟩ }
      exact Dict.get?_insert_self _ _ _
    · intro k hk
      simp only [requestPointerGrab, hA, hg]
      show Dict.get? (Dict.insert m.seats seatId
        (sa.setPointerGrab clientId mode surfaceId now)) k = Dict.get? m.seats k
      exact Dict.get?_insert_ne _ _ _ _ hk
    · simp [requestPointerGrab, hA, hg]

/-- Witness for C3: on `S0` (free) the grab is granted; re-requesting on
the grabbed seat is denied with no state change and the original client
is still stored. -/
theorem c3_witness :
    (requestPointerGrab mgr2 "S0" "game" GrabMode.pointerLock Option.none 0).result
      = Except.ok true ∧
    requestPointerGrab
        (requestPointerGrab mgr2 "S0" "game" GrabMode.pointerLock Option.none 0).state
        "S0" "other" GrabMode.pointerLock Option.none 1
      = ⟨Except.ok false,
         (requestPointerGrab mgr2 "S0" "game" GrabMode.pointerLock Option.none 0).state,
         []⟩ :=
  ⟨((c3_grab_denial_and_grant mgr2 "S0" "game" GrabMode.pointerLock Option.none 0
      (Seat.init "S0" "seat0") (by decide)).2 (by decide)).1,
   (c3_grab_denial_and_grant _ "S0" "other" GrabMode.pointerLock Option.none 1
      { Seat.init "S0" "seat0" with
        pointerGrab := some ⟨GrabMode.pointerLock, "game", Option.none, 0⟩ }
      (by decide)).1 (by decide)⟩

/-- Claim C10: requesting a grab with mode NONE on an ungrabbed seat is
"granted": it returns true, stores an inactive `Grab`, and emits
`GRAB_STARTED`, yet `is_pointer_grabbed` stays false, a later request on
the same seat can still return true, and `release_pointer_grab` is a no-op
that leaves the inactive mode-NONE grab stored. -/
theorem c10_none_mode_grab (m : SeatManager) (seatId clientId clientId2 : String)
    (surfaceId surfaceId2 : Option String) (now now2 : Nat) (mode2 : GrabMode)
    (sa : Seat) (hA : Dict.get? m.seats seatId = some sa)
    (hg : sa.isPointerGrabbed = false) :
    (requestPointerGrab m seatId clientId GrabMode.none surfaceId now).result
      = Except.ok true ∧
    Dict.get? (requestPointerGrab m seatId clientId GrabMode.none surfaceId
        now).state.seats seatId
      = some { sa with pointerGrab := some ⟨GrabMode.none, clientId, surfaceId, now⟩ } ∧
    Grab.isActive ⟨GrabMode.none, clientId, surfaceId, now⟩ = false ∧
    Seat.isPointerGrabbed
      { sa with pointerGrab := some ⟨GrabMode.none, clientId, surfaceId, now⟩ } = false ∧
    (requestPointerGrab m seatId clientId GrabMode.none surfaceId now).events
      = [⟨EventType.grabStarted, some seatId, Option.none,
          [("type", EvValue.str "pointer"), ("mode", EvValue.grabMode GrabMode.none),
           ("client_id", EvValue.str clientId)]⟩] ∧
    (requestPointerGrab
        (requestPointerGrab m seatId clientId GrabMode.none surfaceId now).state
        seatId clientId2 mode2 surfaceId2 now2).result = Except.ok true ∧
    releasePointerGrab
        (requestPointerGrab m seatId clientId GrabMode.none surfaceId now).state seatId
      = ⟨Except.ok (),
         (requestPointerGrab m seatId clientId GrabMode.none surfaceId now).state,
         []⟩ := by
  have h1 : requestPointerGrab m seatId clientId GrabMode.none surfaceId now
      = ⟨Except.ok true,
         { m with seats := Dict.insert m.seats seatId (sa.setPointerGrab clientId GrabMode.none surfaceId now) },
         [⟨EventType.grabStarted, some seatId, Option.none,
           [("type", EvValue.str "pointer"), ("mode", EvValue.grabMode GrabMode.none),
            ("client_id", EvValue.str clientId)]⟩]⟩ := by
    simp [requestPointerGrab, hA, hg]
  have hget : Dict.get? (requestPointerGrab m seatId clientId GrabMode.none surfaceId
      now).state.seats seatId
      = some (sa.setPointerGrab clientId GrabMode.none surfaceId now) := by
    rw [h1]
    exact Dict.get?_insert_self _ _ _
  have hngrab : Seat.isPointerGrabbed
      (sa.setPointerGrab clientId GrabMode.none surfaceId now) = false := rfl
  refine ⟨by rw [h1], hget, rfl, rfl, by rw [h1], ?_, ?_⟩
  · generalize hst : (requestPointerGrab m seatId clientId GrabMode.none surfaceId
      now).state = st at hget
    simp only [requestPointerGrab]
    rw [hget]
    simp [hngrab]
  · generalize hst : (requestPointerGrab m seatId clientId GrabMode.none surfaceId
      now).state = st at hget ⊢
    simp only [releasePointerGrab]
    rw [hget]
    simp [hngrab]

/-- Witness for C10 on a fresh default seat. -/
theorem c10_witness :
    (requestPointerGrab mgr0 "S0" "game" GrabMode.none Option.none 0).result
      = Except.ok true ∧
    (requestPointerGrab
        (requestPointerGrab mgr0 "S0" "game" GrabMode.none Option.none 0).state
        "S0" "other" GrabMode.pointerLock Option.none 1).result = Except.ok true := by
  have h := c10_none_mode_grab mgr0 "S0" "game" "other" Option.none Option.none 0 1
    GrabMode.pointerLock (Seat.init "S0" "seat0") (by decide) (by decide)
  exact ⟨h.1, h.2.2.2.2.2.1⟩

/-- `unassign_device` on a present device whose stored seat reference is
falsy (cleared or empty) is a no-op. -/
theorem unassignDevice_noop_falsy (m : SeatManager) (d : String) (dev : InputDevice)
    (hdev : Dict.get? m.devices d = some dev) (hfal : truthy dev.seatId = false) :
    unassignDevice m d = ⟨Except.ok (), m, []⟩ := by
  simp [unassignDevice, hdev, hfal]

/-- Claim C8: `unassign_device` is a no-op (no error, no event, no state
change) on a registered device without a seat assignment — in particular
on the second of two consecutive calls — and fails with device-not-found
exactly when the identifier is unknown. -/
theorem c8_idempotent_unassign (m : SeatManager) (d : String) :
    (∀ dev, Dict.get? m.devices d = some dev → dev.seatId = Option.none →
      unassignDevice m d = ⟨Except.ok (), m, []⟩) ∧
    (Dict.get? m.devices d = Option.none →
      unassignDevice m d = ⟨Except.error SMError.deviceNotFound, m, []⟩) ∧
    (∀ e, (unassignDevice m d).result = Except.error e →
      Dict.get? m.devices d = Option.none ∧ e = SMError.deviceNotFound) ∧
    (∀ dev, Dict.get? m.devices d = some dev →
      unassignDevice (unassignDevice m d).state d
        = ⟨Except.ok (), (unassignDevice m d).state, []⟩) := by
  refine ⟨?_, ?_, ?_, ?_⟩
  · intro dev hdev hnone
    exact unassignDevice_noop_falsy m d dev hdev (by rw [hnone]; rfl)
  · intro h
    simp [unassignDevice, h]
  · intro e
    cases hdev : Dict.get? m.devices d with
    | none =>
      intro h
      have h' : (Except.error SMError.deviceNotFound : Except SMError Unit)
          = Except.error e := by
        have h2 : (unassignDevice m d).result = Except.error e := h
        rw [show unassignDevice m d = ⟨Except.error SMError.deviceNotFound, m, []⟩
          from by simp [unassignDevice, hdev]] at h2
        exact h2
      cases h'
      exact ⟨rfl, rfl⟩
    | some dev =>
      intro h
      exfalso
      revert h
      simp only [unassignDevice, hdev]
      split
      · split
        · split
          · intro h
            exact absurd h (by simp)
          · intro h
            exact absurd h (by simp)
        · intro h
          exact absurd h (by simp)
      · intro h
        exact absurd h (by simp)
  · intro dev hdev
    obtain ⟨dev', hdev', hfal⟩ := unassignDevice_clears m d dev hdev
    exact unassignDevice_noop_falsy _ d dev' hdev' hfal

/-- Witness for C8: the no-op on a registered unassigned device, the
error on an unknown identifier, and the second of two consecutive calls
on an assigned device. -/
theorem c8_witness :
    unassignDevice mgrReg "m" = ⟨Except.ok (), mgrReg, []⟩ ∧
    unassignDevice mgr0 "m" = ⟨Except.error SMError.deviceNotFound, mgr0, []⟩ ∧
    unassignDevice (unassignDevice mgrRouted "m").state "m"
      = ⟨Except.ok (), (unassignDevice mgrRouted "m").state, []⟩ :=
  ⟨(c8_idempotent_unassign mgrReg "m").1 devM (by decide) (by decide),
   (c8_idempotent_unassign mgr0 "m").2.1 (by decide),
   (c8_idempotent_unassign mgrRouted "m").2.2.2 { devM with seatId := some "S0" }
     (by decide)⟩

/-- Claim C9: the registry result is independent of the listener list, and
every event of an operation is delivered to every listener synchronously
in registration order — the outcome observed at position `i` is exactly
listener `i`'s own outcome, whatever earlier listeners raised, and raised
listener exceptions are caught (returned as logged outcomes), never
propagated into the operation. -/
theorem c9_listener_isolation (op : Op) (m : SeatManager) (ls : List ListenerFn) :
    (runOpNotify op m ls).1 = runOp op m ∧
    (∀ e, e ∈ (runOp op m).events →
      (emitEvent ls e).length = ls.length ∧
      (∀ (i : Nat) (cb : ListenerFn), ls[i]? = some cb →
        (emitEvent ls e)[i]? = some (listenerOutcome cb e))) := by
  refine ⟨rfl, ?_⟩
  intro e _he
  exact ⟨emitEvent_length ls e, fun i cb hcb => emitEvent_getElem ls e i cb hcb⟩

/-- Witness for C9: creating a seat with a raising listener registered
first still delivers the `SEAT_CREATED` event to the second listener. -/
theorem c9_witness :
    (emitEvent (addEventListener (addEventListener [] cbRaise) cbOk)
        ⟨EventType.seatCreated, some "S1", Option.none, [("name", EvValue.str "aux")]⟩)[1]?
      = some (listenerOutcome cbOk
        ⟨EventType.seatCreated, some "S1", Option.none, [("name", EvValue.str "aux")]⟩) ∧
    (emitEvent (addEventListener (addEventListener [] cbRaise) cbOk)
        ⟨EventType.seatCreated, some "S1", Option.none,
          [("name", EvValue.str "aux")]⟩).length = 2 := by
  have h := (c9_listener_isolation (Op.createSeat "aux" "S1") mgr0
    (addEventListener (addEventListener [] cbRaise) cbOk)).2
    ⟨EventType.seatCreated, some "S1", Option.none, [("name", EvValue.str "aux")]⟩
    (by decide)
  exact ⟨h.2 1 cbOk rfl, h.1⟩

/-- Claim C6: in every reachable registry state, destroying the default
seat fails with the invariant-violation error kind and changes nothing;
destroying an unknown identifier fails with seat-not-found and changes
nothing. -/
theorem c6_default_seat_protection (m : SeatManager) (h : Reachable m) :
    destroySeat m m.defaultSeatId
      = ⟨Except.error SMError.invariantViolation, m, []⟩ ∧
    ∀ seatId, Dict.get? m.seats seatId = Option.none →
      destroySeat m seatId = ⟨Except.error SMError.seatNotFound, m, []⟩ := by
  constructor
  · obtain ⟨s0, hs0⟩ := (reachable_wfD m h).2
    simp [destroySeat, hs0]
  · intro seatId hnone
    simp [destroySeat, hnone]

/-- Witness for C6 on a registry with an extra seat: destroying `S0` (the
default) is rejected with `InvariantViolation`; an unknown id gives
seat-not-found. -/
theorem c6_witness :
    destroySeat mgr2 mgr2.defaultSeatId
      = ⟨Except.error SMError.invariantViolation, mgr2, []⟩ ∧
    destroySeat mgr2 "ghost" = ⟨Except.error SMError.seatNotFound, mgr2, []⟩ := by
  have h := c6_default_seat_protection mgr2
    (Reachable.step (Op.createSeat "aux" "S1") mgr0
      (Reachable.init "seat0" "S0" (by decide)) ⟨by decide, by decide⟩)
  exact ⟨h.1, h.2 "ghost" (by decide)⟩

/-- Claim C5: in every reachable state, `route_pointer_motion` returns
none exactly when the device is unknown, unassigned, its seat reference is
dangling, or its seat is not active; otherwise it returns the assigned
seat's identifier; and in the none cases it changes no state and emits no
event. -/
theorem c5_route_guards (m : SeatManager) (h : Reachable m) (deviceId : String)
    (dx dy : Int) :
    ((routePointerMotion m deviceId dx dy).result = Except.ok Option.none ↔
      RouteBlocked m deviceId) ∧
    (∀ sid, (routePointerMotion m deviceId dx dy).result = Except.ok (some sid) →
      ∃ dev, Dict.get? m.devices deviceId = some dev ∧ dev.seatId = some sid) ∧
    ((routePointerMotion m deviceId dx dy).result = Except.ok Option.none →
      (routePointerMotion m deviceId dx dy).state = m ∧
      (routePointerMotion m deviceId dx dy).events = []) := by
  have hkey := (reachable_wfD m h).1.2.2
  cases hdev : Dict.get? m.devices deviceId with
  | none =>
    have hroute : routePointerMotion m deviceId dx dy
        = ⟨Except.ok Option.none, m, []⟩ := by
      simp [routePointerMotion, hdev]
    rw [hroute]
    refine ⟨⟨fun _ => Or.inl hdev, fun _ => rfl⟩, ?_, fun _ => ⟨rfl, rfl⟩⟩
    intro sid hs
    exact absurd hs (by simp)
  | some dev =>
    cases hsid : dev.seatId with
    | none =>
      have hroute : routePointerMotion m deviceId dx dy
          = ⟨Except.ok Option.none, m, []⟩ := by
        simp [routePointerMotion, hdev, hsid]
      rw [hroute]
      refine ⟨⟨fun _ => Or.inr ⟨dev, hdev, Or.inl hsid⟩, fun _ => rfl⟩, ?_,
        fun _ => ⟨rfl, rfl⟩⟩
      intro sid hs
      exact absurd hs (by simp)
    | some sid =>
      by_cases hz : sid = ""
      · subst hz
        have hempty : Dict.get? m.seats "" = Option.none := by
          cases hq : Dict.get? m.seats "" with
          | none => rfl
          | some s => exact absurd rfl (hkey "" s hq).1
        have hroute : routePointerMotion m deviceId dx dy
            = ⟨Except.ok Option.none, m, []⟩ := by
          simp [routePointerMotion, hdev, hsid]
        rw [hroute]
        refine ⟨⟨fun _ => Or.inr ⟨dev, hdev, Or.inr (Or.inl ⟨"", hsid, hempty⟩)⟩,
          fun _ => rfl⟩, ?_, fun _ => ⟨rfl, rfl⟩⟩
        intro s hs
        exact absurd hs (by simp)
      · cases hseat : Dict.get? m.seats sid with
        | none =>
          have hroute : routePointerMotion m deviceId dx dy
              = ⟨Except.ok Option.none, m, []⟩ := by
            simp [routePointerMotion, hdev, hsid, hz, hseat]
          rw [hroute]
          refine ⟨⟨fun _ => Or.inr ⟨dev, hdev, Or.inr (Or.inl ⟨sid, hsid, hseat⟩)⟩,
            fun _ => rfl⟩, ?_, fun _ => ⟨rfl, rfl⟩⟩
          intro s hs
          exact absurd hs (by simp)
        | some seat =>
          by_cases hact : seat.state = SeatState.active
          · have hid : seat.id = sid := (hkey sid seat hseat).2
            have hroute : (routePointerMotion m deviceId dx dy).result
                = Except.ok (some seat.id) := by
              simp [routePointerMotion, hdev, hsid, hz, hseat, hact]
            refine ⟨⟨?_, ?_⟩, ?_, ?_⟩
            · intro habs
              rw [hroute] at habs
              exact absurd habs (by simp)
            · intro hblocked
              exfalso
              rcases hblocked with hb | ⟨dev', hdev', hb⟩
              · rw [hdev] at hb
                exact Option.noConfusion hb
              · rw [hdev] at hdev'
                cases hdev'
                rcases hb with hb | ⟨sid', hb1, hb2⟩ | ⟨sid', seat', hb1, hb2, hb3⟩
                · rw [hsid] at hb
                  exact Option.noConfusion hb
                · rw [hsid] at hb1
                  cases hb1
                  rw [hseat] at hb2
                  exact Option.noConfusion hb2
                · rw [hsid] at hb1
                  cases hb1
                  rw [hseat] at hb2
                  cases hb2
                  exact hb3 hact
            · intro sid2 hs2
              rw [hroute] at hs2
              have hinj : some seat.id = some sid2 := by
                have := congrArg (fun r => match r with
                  | Except.ok v => v
                  | Except.error _ => Option.none) hs2
                simpa using this
              have hsid2 : seat.id = sid2 := Option.some.inj hinj
              exact ⟨dev, rfl, by rw [hsid, ← hsid2, hid]⟩
            · intro habs
              rw [hroute] at habs
              exact absurd habs (by simp)
          · have hroute : routePointerMotion m deviceId dx dy
                = ⟨Except.ok Option.none, m, []⟩ := by
              simp only [routePointerMotion, hdev, hsid]
              rw [if_neg hz, hseat]
              simp only []
              rw [if_pos hact]
            rw [hroute]
            refine ⟨⟨fun _ => Or.inr ⟨dev, hdev,
              Or.inr (Or.inr ⟨sid, seat, hsid, hseat, hact⟩)⟩,
              fun _ => rfl⟩, ?_, fun _ => ⟨rfl, rfl⟩⟩
            intro s hs
            exact absurd hs (by simp)

/-- Witness for C5: a fresh registry blocks routing for an unknown
device. -/
theorem c5_witness : RouteBlocked mgr0 "x" :=
  ((c5_route_guards mgr0 (Reachable.init "seat0" "S0" (by decide)) "x" 1 2).1).mp
    (by decide)

theorem clamp_step_idem (lo hi p d : Int) (hlo : lo ≤ p) (hhi : p ≤ hi)
    (hc : d = 0 ∨ p + d < lo ∨ hi < p + d) :
    max lo (min hi (max lo (min hi (p + d)) + d)) = max lo (min hi (p + d)) := by
  rcases hc with hc | hc | hc <;> omega

/-- On a routed (assigned, active) device, `route_pointer_motion` replaces
the seat's cursor with the moved-then-clamped position. -/
theorem routePointerMotion_routed (m : SeatManager) (deviceId : String)
    (dx dy : Int) (dev : InputDevice) (sid : String) (seat : Seat)
    (hdev : Dict.get? m.devices deviceId = some dev)
    (hsid : dev.seatId = some sid) (hz : sid ≠ "")
    (hseat : Dict.get? m.seats sid = some seat)
    (hact : seat.state = SeatState.active) :
    (routePointerMotion m deviceId dx dy).state
      = { m with seats := Dict.insert m.seats sid { seat with cursor := { seat.cursor.moveBy dx dy with position := clampToBounds m.displayBounds (seat.cursor.position.move dx dy) } } } := by
  simp [routePointerMotion, hdev, hsid, hz, hseat, hact, clampToBounds,
    Cursor.moveBy, Position.move, Position.clamp]

/-- Claim C4 (amended): on an assigned device of an active seat with
nonempty display bounds, motion moves the cursor by `(dx, dy)` and clamps
componentwise into `[x, x+w-1] × [y, y+h-1]`; an out-of-range component
lands exactly on the violated boundary; and — starting from an in-bounds
cursor — repeating the motion leaves the cursor unchanged provided each
delta component is zero or itself moves the cursor out of range on its own
axis (the idempotence claim fails without that proviso, see the
counterexample). -/
theorem c4_clamped_motion (m : SeatManager) (deviceId : String) (dx dy : Int)
    (dev : InputDevice) (sid : String) (seat : Seat)
    (hdev : Dict.get? m.devices deviceId = some dev)
    (hsid : dev.seatId = some sid) (hz : sid ≠ "")
    (hseat : Dict.get? m.seats sid = some seat)
    (hact : seat.state = SeatState.active)
    (hw : 1 ≤ m.displayBounds.width) (hh : 1 ≤ m.displayBounds.height) :
    ∃ seat', Dict.get? (routePointerMotion m deviceId dx dy).state.seats sid
        = some seat' ∧
      seat'.cursor.position
        = clampToBounds m.displayBounds (seat.cursor.position.move dx dy) ∧
      (m.displayBounds.x ≤ seat'.cursor.position.x ∧
       seat'.cursor.position.x ≤ m.displayBounds.x + m.displayBounds.width - 1 ∧
       m.displayBounds.y ≤ seat'.cursor.position.y ∧
       seat'.cursor.position.y ≤ m.displayBounds.y + m.displayBounds.height - 1) ∧
      ((seat.cursor.position.move dx dy).x < m.displayBounds.x →
        seat'.cursor.position.x = m.displayBounds.x) ∧
      (m.displayBounds.x + m.displayBounds.width - 1
          < (seat.cursor.position.move dx dy).x →
        seat'.cursor.position.x = m.displayBounds.x + m.displayBounds.width - 1) ∧
      ((seat.cursor.position.move dx dy).y < m.displayBounds.y →
        seat'.cursor.position.y = m.displayBounds.y) ∧
      (m.displayBounds.y + m.displayBounds.height - 1
          < (seat.cursor.position.move dx dy).y →
        seat'.cursor.position.y = m.displayBounds.y + m.displayBounds.height - 1) ∧
      ((m.displayBounds.x ≤ seat.cursor.position.x ∧
        seat.cursor.position.x ≤ m.displayBounds.x + m.displayBounds.width - 1 ∧
        m.displayBounds.y ≤ seat.cursor.position.y ∧
        seat.cursor.position.y ≤ m.displayBounds.y + m.displayBounds.height - 1) →
       (dx = 0 ∨ (seat.cursor.position.move dx dy).x < m.displayBounds.x ∨
          m.displayBounds.x + m.displayBounds.width - 1
            < (seat.cursor.position.move dx dy).x) →
       (dy = 0 ∨ (seat.cursor.position.move dx dy).y < m.displayBounds.y ∨
          m.displayBounds.y + m.displayBounds.height - 1
            < (seat.cursor.position.move dx dy).y) →
       ∃ seat2, Dict.get? (routePointerMotion (routePointerMotion m deviceId
           dx dy).state deviceId dx dy).state.seats sid = some seat2 ∧
         seat2.cursor.position = seat'.cursor.position) := by
  have hst1 := routePointerMotion_routed m deviceId dx dy dev sid seat
    hdev hsid hz hseat hact
  refine ⟨{ seat with cursor := { seat.cursor.moveBy dx dy with position := clampToBounds m.displayBounds (seat.cursor.position.move dx dy) } },
    ?_, rfl, ?_, ?_, ?_, ?_, ?_, ?_⟩
  · rw [hst1]
    exact Dict.get?_insert_self _ _ _
  · simp only [clampToBounds, Position.clamp, Position.move]
    refine ⟨?_, ?_, ?_, ?_⟩ <;> omega
  · simp only [clampToBounds, Position.clamp, Position.move]
    intro hc
    omega
  · simp only [clampToBounds, Position.clamp, Position.move]
    intro hc
    omega
  · simp only [clampToBounds, Position.clamp, Position.move]
    intro hc
    omega
  · simp only [clampToBounds, Position.clamp, Position.move]
    intro hc
    omega
  · intro hin hcx hcy
    rw [hst1]
    have hseat1 : Dict.get? (Dict.insert m.seats sid { seat with cursor := { seat.cursor.moveBy dx dy with position := clampToBounds m.displayBounds (seat.cursor.position.move dx dy) } }) sid = some { seat with cursor := { seat.cursor.moveBy dx dy with position := clampToBounds m.displayBounds (seat.cursor.position.move dx dy) } } :=
      Dict.get?_insert_self _ _ _
    have hst2 := routePointerMotion_routed
      { m with seats := Dict.insert m.seats sid { seat with cursor := { seat.cursor.moveBy dx dy with position := clampToBounds m.displayBounds (seat.cursor.position.move dx dy) } } }
      deviceId dx dy dev sid
      { seat with cursor := { seat.cursor.moveBy dx dy with position := clampToBounds m.displayBounds (seat.cursor.position.move dx dy) } }
      hdev hsid hz hseat1 hact
    refine ⟨_, by rw [hst2]; exact Dict.get?_insert_self _ _ _, ?_⟩
    obtain ⟨hx1, hx2, hy1, hy2⟩ := hin
    simp only [Position.move] at hcx hcy
    simp only [clampToBounds, Position.clamp, Position.move, Cursor.moveBy,
      Position.mk.injEq]
    constructor
    · rcases hcx with hc | hc | hc <;> omega
    · rcases hcy with hc | hc | hc <;> omega

/-- Counterexample for C4 as stated: with default 1920×1080 bounds and the
cursor at the origin, the motion `(5000, 10)` leaves the region, the first
routing clamps to `(1919, 10)`, but repeating the same out-of-range motion
moves the cursor again, to `(1919, 20)` — so "repeating the same
out-of-range motion leaves the cursor unchanged" is false. -/
theorem c4_counterexample :
    (1919 : Int) < 0 + 5000 ∧
    Option.map (fun s => s.cursor.position)
        (Dict.get? (routePointerMotion mgrRouted "m" 5000 10).state.seats "S0")
      = some ⟨1919, 10⟩ ∧
    Option.map (fun s => s.cursor.position)
        (Dict.get? (routePointerMotion (routePointerMotion mgrRouted "m" 5000
          10).state "m" 5000 10).state.seats "S0")
      = some ⟨1919, 20⟩ ∧
    (⟨1919, 10⟩ : Position) ≠ ⟨1919, 20⟩ := by
  refine ⟨by decide, by decide, by decide, by decide⟩

/-- Witness for C4 (amended) on the concrete routed registry: the motion
`(5000, 5000)` clamps to `(1919, 1079)` and repeating it leaves the cursor
there. -/
theorem c4_witness :
    ∃ seat', Dict.get? (routePointerMotion mgrRouted "m" 5000 5000).state.seats "S0"
        = some seat' ∧
      seat'.cursor.position = clampToBounds mgrRouted.displayBounds
        (({ Seat.init "S0" "seat0" with
          pointerDevices := ["m"] }).cursor.position.move 5000 5000) ∧
      ∃ seat2, Dict.get? (routePointerMotion (routePointerMotion mgrRouted "m" 5000
          5000).state "m" 5000 5000).state.seats "S0" = some seat2 ∧
        seat2.cursor.position = seat'.cursor.position := by
  obtain ⟨seat', h1, h2, _h3, _h4, _h5, _h6, _h7, h8⟩ :=
    c4_clamped_motion mgrRouted "m" 5000 5000 { devM with seatId := some "S0" }
      "S0" { Seat.init "S0" "seat0" with pointerDevices := ["m"] }
      (by decide) (by decide) (by decide) (by decide)
      (by decide) (by decide) (by decide)
  obtain ⟨seat2, h9, h10⟩ := h8 (by decide)
    (Or.inr (Or.inr (by decide))) (Or.inr (Or.inr (by decide)))
  exact ⟨seat', h1, h2, seat2, h9, h10⟩

/-- Counterexample for C1 as stated: the operation sequence register `m`,
assign `m → S0`, re-register `m` (last write wins resets the stored seat
reference without cleaning S0's set), assign `m → S1` is reachable, and
afterwards `m` sits in the pointer-device sets of both `S0` and `S1`:
the system-wide uniqueness claim fails on this sequence. -/
theorem c1_counterexample : Reachable mgrReReg ∧ ¬ PointerUniq mgrReReg := by
  constructor
  · have h0 : Reachable mgr0 := Reachable.init "seat0" "S0" (by decide)
    have h1 : Reachable mgr2 :=
      Reachable.step (Op.createSeat "aux" "S1") mgr0 h0 ⟨by decide, by decide⟩
    have h2 := Reachable.step (Op.registerDevice devM) mgr2 h1 trivial
    have h3 := Reachable.step (Op.assignDevice "m" "S0" false) _ h2 trivial
    have h4 := Reachable.step (Op.registerDevice devM) _ h3 trivial
    have h5 := Reachable.step (Op.assignDevice "m" "S1" false) _ h4 trivial
    exact h5
  · intro h
    have hA : ∃ sA, Dict.get? mgrReReg.seats "S0" = some sA ∧
        "m" ∈ sA.pointerDevices := by
      cases hq : Dict.get? mgrReReg.seats "S0" with
      | none => exact absurd hq (by decide)
      | some sA =>
        refine ⟨sA, rfl, ?_⟩
        have h1 : "m" ∈ (Option.elim (Dict.get? mgrReReg.seats "S0") []
            Seat.pointerDevices) := by decide
        rw [hq] at h1
        simpa using h1
    have hB : ∃ sB, Dict.get? mgrReReg.seats "S1" = some sB ∧
        "m" ∈ sB.pointerDevices := by
      cases hq : Dict.get? mgrReReg.seats "S1" with
      | none => exact absurd hq (by decide)
      | some sB =>
        refine ⟨sB, rfl, ?_⟩
        have h1 : "m" ∈ (Option.elim (Dict.get? mgrReReg.seats "S1") []
            Seat.pointerDevices) := by decide
        rw [hq] at h1
        simpa using h1
    obtain ⟨sA, hA1, hA2⟩ := hA
    obtain ⟨sB, hB1, hB2⟩ := hB
    have := h "m" "S0" "S1" sA sB hA1 hB1 hA2 hB2
    exact absurd this (by decide)

/-- Claim C1 (amended): restricted to operation sequences that never
re-register an identifier still present in some seat's device set, every
reachable state keeps each device identifier in at most one seat's
pointer-device set and at most one seat's keyboard-device set,
system-wide. -/
theorem c1_uniqueness (m : SeatManager) (h : ReachableSafe m) :
    PointerUniq m ∧ KeyboardUniq m :=
  ⟨pointerUniq_of_assignedConsistent m (reachableSafe_inv m h).2,
   keyboardUniq_of_assignedConsistent m (reachableSafe_inv m h).2⟩

/-- Witness for C1 (amended) at a concrete safely-reachable state with a
registered and assigned device. -/
theorem c1_witness : PointerUniq mgrRouted ∧ KeyboardUniq mgrRouted := by
  have h0 : ReachableSafe mgr0 := ReachableSafe.init "seat0" "S0" (by decide)
  have hrs : Op.regSafe (Op.registerDevice devM) mgr0 := by
    intro k s hk
    simp only [mgr0, SeatManager.init, createSeat, Seat.init, Dict.insert,
      Dict.get?] at hk
    split at hk
    · cases hk
      exact ⟨by decide, by decide⟩
    · exact Option.noConfusion hk
  have h1 : ReachableSafe mgrReg :=
    ReachableSafe.step (Op.registerDevice devM) mgr0 h0 trivial hrs
  have h2 : ReachableSafe mgrRouted :=
    ReachableSafe.step (Op.assignDevice "m" "S0" false) mgrReg h1 trivial trivial
  exact c1_uniqueness mgrRouted h2

end MPX
